import Mathlib

/-!
Verification of the ReShade FX parser front-end (effect_parser header):
a shallow embedding of the IR builder (`add_node`, `lookup_id`,
`convert_type`, `convert_constant`), the `type_info` value type and its
predicates and equality, and the `pass_properties` record with its
default field values, together with theorems settling the specification
claims about them.

Machine integers: `spv::Id` and the other `unsigned int` quantities are
modelled as `Nat` (the identifier counter starts at 100 and is bumped once
per emitted node, so 32-bit wrap-around is unreachable within a compile);
the signed `array_length` is modelled as `Int`.
-/

namespace reshadefx

/- SPIR-V opcode and enumerant values used by the parser (from spirv.hpp). -/
namespace spv

def OpNop : Nat := 0
def OpTypeVoid : Nat := 19
def OpTypeBool : Nat := 20
def OpTypeInt : Nat := 21
def OpTypeFloat : Nat := 22
def OpTypeVector : Nat := 23
def OpTypeMatrix : Nat := 24
def OpTypeImage : Nat := 25
def OpTypeSampledImage : Nat := 27
def OpTypeArray : Nat := 28
def OpTypeRuntimeArray : Nat := 29
def OpTypeStruct : Nat := 30
def OpTypePointer : Nat := 32
def OpTypeFunction : Nat := 33
def OpConstant : Nat := 43
def OpConstantNull : Nat := 46
def StorageClassFunction : Nat := 7
def Dim2D : Nat := 1
def ImageFormatRgba8 : Nat := 4

end spv

/-- Source location attached to tokens and IR nodes (source_location.hpp). -/
structure location where
  source : String := ""
  line : Nat := 0
  column : Nat := 0
deriving DecidableEq

/-- One IR instruction node (`struct spv_node`).  The C++ default for
`index` is `size_t(-1)`; it is overwritten when the node is appended to a
section, before any observation, and is modelled likewise.  The C++ field
`location` is named `loc` here because the field would shadow its type. -/
structure spv_node where
  op : Nat := spv.OpNop
  result : Nat := 0
  result_type : Nat := 0
  operands : List Nat := []
  index : Nat := 18446744073709551615
  loc : location := {}
deriving DecidableEq

/-- The type descriptor (`struct type_info`).  Bit-field widths
(`size : 8`, `rows : 4`, `cols : 4`) never overflow in the code paths
modelled here (all stores copy existing fields or store 1), so the fields
are plain `Nat`.  The misspelled field name is kept from the source. -/
structure type_info where
  base : Nat := spv.OpNop
  size : Nat := 0
  rows : Nat := 0
  cols : Nat := 0
  is_signed : Bool := false
  is_pointer : Bool := false
  qualifiers : Nat := 0
  array_length : Int := 0
  definition : Nat := 0
  array_lenghth_expression : Nat := 0
deriving DecidableEq

namespace type_info

/-- `type_info::is_array`. -/
def is_array (t : type_info) : Bool := t.array_length != 0

/-- `type_info::is_vector`: `rows > 1 && cols == 1`. -/
def is_vector (t : type_info) : Bool := decide (1 < t.rows) && t.cols == 1

/-- `type_info::is_matrix`: `rows >= 1 && cols > 1`. -/
def is_matrix (t : type_info) : Bool := decide (1 ≤ t.rows) && decide (1 < t.cols)

/-- `type_info::is_void`. -/
def is_void (t : type_info) : Bool := t.base == spv.OpTypeVoid

/-- `type_info::is_boolean`. -/
def is_boolean (t : type_info) : Bool := t.base == spv.OpTypeBool

/-- `type_info::is_integral`. -/
def is_integral (t : type_info) : Bool := t.base == spv.OpTypeInt

/-- `type_info::is_floating_point`. -/
def is_floating_point (t : type_info) : Bool := t.base == spv.OpTypeFloat

/-- `type_info::is_numeric`. -/
def is_numeric (t : type_info) : Bool :=
  t.is_boolean || t.is_integral || t.is_floating_point

/-- `type_info::is_struct`. -/
def is_struct (t : type_info) : Bool := t.base == spv.OpTypeStruct

/-- `type_info::is_image`. -/
def is_image (t : type_info) : Bool := t.base == spv.OpTypeImage

/-- `type_info::is_sampled_image`. -/
def is_sampled_image (t : type_info) : Bool := t.base == spv.OpTypeSampledImage

/-- `type_info::is_scalar`. -/
def is_scalar (t : type_info) : Bool :=
  !t.is_array && !t.is_matrix && !t.is_vector && t.is_numeric

end type_info

/-- `operator==(const type_info &, const type_info &)`: compares base,
size, rows, cols, is_signed, array_length, definition and is_pointer, in
the source's order; qualifiers (and the array-length-expression id) are
not compared. -/
def type_info_eq (lhs rhs : type_info) : Bool :=
  lhs.base == rhs.base && lhs.size == rhs.size && lhs.rows == rhs.rows &&
  lhs.cols == rhs.cols && lhs.is_signed == rhs.is_signed &&
  lhs.array_length == rhs.array_length && lhs.definition == rhs.definition &&
  lhs.is_pointer == rhs.is_pointer

/-- `struct function_info` (fields not used by the claims are kept). -/
structure function_info where
  return_type : type_info
  name : String := ""
  unique_name : String := ""
  parameter_list : List type_info := []
  return_semantic : String := ""
  definition : Nat := 0

/-- The named IR sections owned by a `parser` instance
(`_entries`, `_strings`, `_annotations`, `_variables`,
`_function_section`, `_temporary`). -/
inductive section_id where
  | entries
  | strings
  | annotations
  | variables
  | function_section
  | temporary
deriving DecidableEq

/-- The mutable builder state of a `parser` instance: the six IR sections,
the identifier lookup table `_id_lookup`, the type interning list
`_type_lookup`, and the identifier counter `_next_id` (seeded at 100). -/
structure parser_state where
  sections : section_id → List spv_node
  id_lookup : List (section_id × Nat)
  type_lookup : List (type_info × Nat)
  next_id : Nat

/-- The builder state at the start of a compile. -/
def init_state : parser_state :=
  { sections := fun _ => [], id_lookup := [], type_lookup := [], next_id := 100 }

/-- Pointwise update of one section. -/
def update_section (f : section_id → List spv_node) (sec : section_id)
    (l : List spv_node) : section_id → List spv_node :=
  fun x => if x = sec then l else f x

/-- `parser::add_node_without_result`: appends a default node to the
section, stamps its op, index and location, and returns its index. -/
def add_node_without_result (s : parser_state) (sec : section_id)
    (loc : location) (op : Nat) : parser_state × Nat :=
  let insts := s.sections sec
  let node : spv_node := { op := op, index := insts.length, loc := loc }
  ({ s with sections := update_section s.sections sec (insts ++ [node]) },
   insts.length)

/-- In-place update of the node at a given index of a section (the effect
of writing through the reference returned by `lookup_id`). -/
def list_modify (l : List spv_node) (i : Nat) (f : spv_node → spv_node) :
    List spv_node :=
  match l[i]? with
  | some a => l.set i (f a)
  | none => l

/-- Apply `list_modify` to one section of the state. -/
def modify_node (s : parser_state) (sec : section_id) (idx : Nat)
    (f : spv_node → spv_node) : parser_state :=
  { s with
    sections := update_section s.sections sec (list_modify (s.sections sec) idx f) }

/-- `parser::add_node`: appends a node, assigns it the next identifier,
type-tags it, records `(section, position)` in `_id_lookup`, and returns
the assigned identifier. -/
def add_node (s : parser_state) (sec : section_id) (loc : location)
    (op : Nat) (ty : Nat) : parser_state × Nat :=
  let r := add_node_without_result s sec loc op
  let result := r.1.next_id
  let s2 := modify_node r.1 sec r.2
    (fun n => { n with result := result, result_type := ty })
  let s3 := { s2 with id_lookup := s2.id_lookup ++ [(sec, r.2)], next_id := s2.next_id + 1 }
  (s3, result)

/-- `parser::lookup_id`: resolves `_id_lookup[id - 100]` to the node.  The
C++ vector access is unchecked; an identifier outside the table (including
one below the reserved seed 100, whose `uint32` index would be out of any
real vector's bounds) is modelled as `none`. -/
def lookup_id (s : parser_state) (id : Nat) : Option spv_node :=
  if id < 100 then none
  else
    match s.id_lookup[id - 100]? with
    | some e => (s.sections e.1)[e.2]?
    | none => none

/-- The effect of `lookup_id(id).add(v)`: appends one operand to the node
the identifier resolves to. -/
def add_operand (s : parser_state) (id : Nat) (v : Nat) : parser_state :=
  if id < 100 then s
  else
    match s.id_lookup[id - 100]? with
    | some e => modify_node s e.1 e.2
        (fun n => { n with operands := n.operands ++ [v] })
    | none => s

/-- The `std::find_if` scan of `_type_lookup` in `convert_type`: the first
entry whose `type_info` compares equal (via `operator==`) to the request. -/
def find_type : List (type_info × Nat) → type_info → Option Nat
  | [], _ => none
  | e :: rest, info =>
    if type_info_eq e.1 info then some e.2 else find_type rest info

/-- The element `type_info{base, size, rows, cols, is_signed}` built by
`convert_type` for arrays, pointers, vectors and matrices: the remaining
aggregate members take their default values. -/
def scalar_element (info : type_info) (rows cols : Nat) : type_info :=
  { base := info.base, size := info.size, rows := rows, cols := cols,
    is_signed := info.is_signed }

/-- Appending `{info, type}` to `_type_lookup`. -/
def push_type (s : parser_state) (info : type_info) (ty : Nat) :
    parser_state :=
  { s with type_lookup := s.type_lookup ++ [(info, ty)] }

/-- `parser::convert_type(const type_info &)`, recursion made structural on
an explicit fuel.  The C++ recursion always moves from an array/pointer
type to its non-array non-pointer element, from a matrix to its column
vector, and from a vector to its scalar, so its depth is at most 4;
`convert_type` below runs this with fuel 4, and `convert_type_fuel_ge`
proves any larger fuel computes the same result, so the fuel-0 branch is
unreachable from `convert_type`. -/
def convert_type_fuel : Nat → parser_state → type_info → parser_state × Nat
  | 0, s, _ => (s, 0)
  | fuel + 1, s, info =>
    match find_type s.type_lookup info with
    | some ty => (s, ty)
    | none =>
      if info.is_array then
        let r := convert_type_fuel fuel s (scalar_element info info.rows info.cols)
        if 0 < info.array_length then
          let r2 := add_node r.1 section_id.variables {} spv.OpTypeArray 0
          let s3 := add_operand r2.1 r2.2 r.2
          let s4 := add_operand s3 r2.2 info.array_lenghth_expression
          (push_type s4 info r2.2, r2.2)
        else
          let r2 := add_node r.1 section_id.variables {} spv.OpTypeRuntimeArray 0
          let s3 := add_operand r2.1 r2.2 r.2
          (push_type s3 info r2.2, r2.2)
      else if info.is_pointer then
        let r := convert_type_fuel fuel s (scalar_element info info.rows info.cols)
        let r2 := add_node r.1 section_id.variables {} spv.OpTypePointer 0
        let s3 := add_operand r2.1 r2.2 spv.StorageClassFunction
        let s4 := add_operand s3 r2.2 r.2
        (push_type s4 info r2.2, r2.2)
      else if info.is_vector then
        let r := convert_type_fuel fuel s (scalar_element info 1 1)
        let r2 := add_node r.1 section_id.variables {} spv.OpTypeVector 0
        let s3 := add_operand r2.1 r2.2 r.2
        let s4 := add_operand s3 r2.2 info.rows
        (push_type s4 info r2.2, r2.2)
      else if info.is_matrix then
        let r := convert_type_fuel fuel s (scalar_element info info.rows 1)
        let r2 := add_node r.1 section_id.variables {} spv.OpTypeMatrix 0
        let s3 := add_operand r2.1 r2.2 r.2
        let s4 := add_operand s3 r2.2 info.cols
        (push_type s4 info r2.2, r2.2)
      else if info.base == spv.OpTypeVoid then
        let r2 := add_node s section_id.variables {} spv.OpTypeVoid 0
        (push_type r2.1 info r2.2, r2.2)
      else if info.base == spv.OpTypeBool then
        let r2 := add_node s section_id.variables {} spv.OpTypeBool 0
        (push_type r2.1 info r2.2, r2.2)
      else if info.base == spv.OpTypeFloat then
        let r2 := add_node s section_id.variables {} spv.OpTypeFloat 0
        let s3 := add_operand r2.1 r2.2 info.size
        (push_type s3 info r2.2, r2.2)
      else if info.base == spv.OpTypeInt then
        let r2 := add_node s section_id.variables {} spv.OpTypeInt 0
        let s3 := add_operand r2.1 r2.2 info.size
        let s4 := add_operand s3 r2.2 (if info.is_signed then 1 else 0)
        (push_type s4 info r2.2, r2.2)
      else if info.base == spv.OpTypeStruct then
        (push_type s info info.definition, info.definition)
      else if info.base == spv.OpTypeImage then
        let r2 := add_node s section_id.variables {} spv.OpTypeImage 0
        let s3 := add_operand r2.1 r2.2 info.definition
        let s4 := add_operand s3 r2.2 spv.Dim2D
        let s5 := add_operand s4 r2.2 0
        let s6 := add_operand s5 r2.2 0
        let s7 := add_operand s6 r2.2 0
        let s8 := add_operand s7 r2.2 1
        let s9 := add_operand s8 r2.2 spv.ImageFormatRgba8
        (push_type s9 info r2.2, r2.2)
      else if info.base == spv.OpTypeSampledImage then
        let r2 := add_node s section_id.variables {} spv.OpTypeSampledImage 0
        let s3 := add_operand r2.1 r2.2 info.definition
        (push_type s3 info r2.2, r2.2)
      else
        (s, 0)

/-- The maximal recursion depth `convert_type` can need for a given input. -/
def ct_depth (info : type_info) : Nat :=
  1 + (if info.array_length ≠ 0 ∨ info.is_pointer = true then 1 else 0) +
    (if 1 < info.cols then 1 else 0) + (if 1 < info.rows then 1 else 0)

/-- `parser::convert_type(const type_info &)`. -/
def convert_type (s : parser_state) (info : type_info) : parser_state × Nat :=
  convert_type_fuel 4 s info

/-- Sequential conversion of a function's parameter types (the loop
collecting `param_types` in `convert_type(const function_info &)`). -/
def convert_params (s : parser_state) :
    List type_info → parser_state × List Nat
  | [] => (s, [])
  | p :: ps =>
    let r := convert_type s p
    let rs := convert_params r.1 ps
    (rs.1, r.2 :: rs.2)

/-- `parser::convert_type(const function_info &)`: interns the return type
and every parameter type, then emits an `OpTypeFunction` node whose
operands are the return type id followed by the parameter type ids. -/
def convert_type_function (s : parser_state) (info : function_info) :
    parser_state × Nat :=
  let r := convert_type s info.return_type
  let rp := convert_params r.1 info.parameter_list
  let r2 := add_node rp.1 section_id.variables {} spv.OpTypeFunction 0
  let s4 := add_operand r2.1 r2.2 r.2
  let s5 := rp.2.foldl (fun acc p => add_operand acc r2.2 p) s4
  (s5, r2.2)

/-- `parser::convert_constant`: value 0 yields an `OpConstantNull` node,
any other value an `OpConstant` node carrying the raw value as its sole
operand; both are typed with `convert_type(type)`. -/
def convert_constant (s : parser_state) (ty : type_info) (value : Nat) :
    parser_state × Nat :=
  if value = 0 then
    let r := convert_type s ty
    add_node r.1 section_id.variables {} spv.OpConstantNull r.2
  else
    let r := convert_type s ty
    let r2 := add_node r.1 section_id.variables {} spv.OpConstant r.2
    (add_operand r2.1 r2.2 value, r2.2)

/-- The requests served by the `OpTypeStruct` case of `convert_type`'s
switch: struct base kind reached with none of the array, pointer, vector
or matrix branches taken. -/
def struct_direct (info : type_info) : Bool :=
  info.base == spv.OpTypeStruct && !info.is_array && !info.is_pointer &&
  !info.is_vector && !info.is_matrix

/-- The requests served by the `default` case of `convert_type`'s switch:
not array, pointer, vector or matrix shaped, and a base kind outside the
supported set. -/
def unsupported_scalar (info : type_info) : Bool :=
  !info.is_array && !info.is_pointer && !info.is_vector && !info.is_matrix &&
  info.base != spv.OpTypeVoid && info.base != spv.OpTypeBool &&
  info.base != spv.OpTypeFloat && info.base != spv.OpTypeInt &&
  info.base != spv.OpTypeStruct && info.base != spv.OpTypeImage &&
  info.base != spv.OpTypeSampledImage

/-- Two `type_info` values that differ in their array length and agree in
every other field. -/
def differ_only_in_array_length (a b : type_info) : Bool :=
  a.base == b.base && a.size == b.size && a.rows == b.rows &&
  a.cols == b.cols && a.is_signed == b.is_signed &&
  a.is_pointer == b.is_pointer && a.qualifiers == b.qualifiers &&
  a.definition == b.definition &&
  a.array_lenghth_expression == b.array_lenghth_expression &&
  a.array_length != b.array_length

/-- Well-formedness of the identifier table, maintained by the builder:
the counter equals 100 plus the number of assigned identifiers, every
recorded `(section, position)` is in bounds, and no two identifiers share
a table entry. -/
def state_wf (s : parser_state) : Prop :=
  s.next_id = 100 + s.id_lookup.length ∧
  (∀ e ∈ s.id_lookup, e.2 < (s.sections e.1).length) ∧
  s.id_lookup.Nodup

/-- Every interned type identifier is below the counter. -/
def tl_bounded (s : parser_state) : Prop :=
  ∀ e ∈ s.type_lookup, e.2 < s.next_id

/-- Every interned non-struct type entry carries an already-assigned
node identifier (at least the seed 100 and below the counter). -/
def tl_ns_inv (s : parser_state) : Prop :=
  ∀ e ∈ s.type_lookup, e.1.base ≠ spv.OpTypeStruct → 100 ≤ e.2 ∧ e.2 < s.next_id

/-- Structurally distinct interned types carry distinct identifiers. -/
def tl_distinct (s : parser_state) : Prop :=
  ∀ e1 ∈ s.type_lookup, ∀ e2 ∈ s.type_lookup,
    type_info_eq e1.1 e2.1 = false → e1.2 ≠ e2.2

/-- Interned entries served by the struct case carry the struct's
definition identifier. -/
def tl_struct_inv (s : parser_state) : Prop :=
  ∀ e ∈ s.type_lookup, struct_direct e.1 = true → e.2 = e.1.definition

/-- The primitive mutations the builder state undergoes during a compile:
`add_node`, `add_node_without_result`, and appending an operand through
the reference returned by `lookup_id`. -/
inductive builder_op where
  | mk_node (sec : section_id) (loc : location) (op ty : Nat)
  | mk_node_no_result (sec : section_id) (loc : location) (op : Nat)
  | mk_operand (id v : Nat)

/-- Apply one primitive builder mutation. -/
def apply_op (s : parser_state) : builder_op → parser_state
  | .mk_node sec loc op ty => (add_node s sec loc op ty).1
  | .mk_node_no_result sec loc op => (add_node_without_result s sec loc op).1
  | .mk_operand id v => add_operand s id v

/-- Run a sequence of primitive builder mutations. -/
def run_ops (s : parser_state) (l : List builder_op) : parser_state :=
  l.foldl apply_op s

/-- The identifiers handed out by the `add_node` calls of a sequence of
builder mutations, in order. -/
def returned_ids (s : parser_state) : List builder_op → List Nat
  | [] => []
  | o :: rest =>
    (match o with
     | .mk_node _ _ _ _ => [s.next_id]
     | _ => []) ++ returned_ids (apply_op s o) rest

/- Enumerant values of the anonymous enum inside `struct pass_properties`:
blend factors ZERO..INVDESTCOLOR, blend ops ADD..MAX, stencil ops
KEEP..DECR (REPLACE restarts at 3), comparison functions NEVER..ALWAYS. -/
namespace pass_properties

def NONE : Nat := 0
def ZERO : Nat := 0
def ONE : Nat := 1
def SRCCOLOR : Nat := 2
def INVSRCCOLOR : Nat := 3
def SRCALPHA : Nat := 4
def INVSRCALPHA : Nat := 5
def DESTALPHA : Nat := 6
def INVDESTALPHA : Nat := 7
def DESTCOLOR : Nat := 8
def INVDESTCOLOR : Nat := 9
def ADD : Nat := 1
def SUBTRACT : Nat := 2
def REVSUBTRACT : Nat := 3
def MIN : Nat := 4
def MAX : Nat := 5
def KEEP : Nat := 1
def REPLACE : Nat := 3
def INCRSAT : Nat := 4
def DECRSAT : Nat := 5
def INVERT : Nat := 6
def INCR : Nat := 7
def DECR : Nat := 8
def NEVER : Nat := 1
def LESS : Nat := 2
def EQUAL : Nat := 3
def LESSEQUAL : Nat := 4
def GREATER : Nat := 5
def NOTEQUAL : Nat := 6
def GREATEREQUAL : Nat := 7
def ALWAYS : Nat := 8

end pass_properties

/-- `struct pass_properties`.  The C++ members `srgb_write_enable`,
`blend_enable`, `stencil_enable` and `stencil_reference_value` have no
initializer (they are indeterminate after default construction), so they
have no default value here; the annotation map (external variant type) is
not modelled.  The `location` member is named `loc` (it would shadow its
type). -/
structure pass_properties where
  loc : location := {}
  name : String := ""
  render_targets : List Nat := List.replicate 8 0
  vertex_shader : Nat := 0
  pixel_shader : Nat := 0
  clear_render_targets : Bool := true
  srgb_write_enable : Bool
  blend_enable : Bool
  stencil_enable : Bool
  color_write_mask : Nat := 0xF
  stencil_read_mask : Nat := 0xFF
  stencil_write_mask : Nat := 0xFF
  blend_op : Nat := pass_properties.ADD
  blend_op_alpha : Nat := pass_properties.ADD
  src_blend : Nat := pass_properties.ONE
  dest_blend : Nat := pass_properties.ZERO
  src_blend_alpha : Nat := pass_properties.ONE
  dest_blend_alpha : Nat := pass_properties.ZERO
  stencil_comparison_func : Nat := pass_properties.ALWAYS
  stencil_reference_value : Nat
  stencil_op_pass : Nat := pass_properties.KEEP
  stencil_op_fail : Nat := pass_properties.KEEP
  stencil_op_depth_fail : Nat := pass_properties.KEEP

/-- A freshly default-constructed `pass_properties` record, as a function
of the four indeterminate members. -/
def default_pass (srgb blend stencil : Bool) (sref : Nat) : pass_properties :=
  { srgb_write_enable := srgb, blend_enable := blend,
    stencil_enable := stencil, stencil_reference_value := sref }

/- Concrete sample inputs used by counterexamples and witnesses. -/

def sample_struct_sized : type_info :=
  { base := spv.OpTypeStruct, array_length := 3, definition := 100 }

def sample_struct_scalar : type_info :=
  { base := spv.OpTypeStruct, array_length := 0, definition := 100 }

def sample_struct_vec : type_info :=
  { base := spv.OpTypeStruct, rows := 2, cols := 1, definition := 50 }

def sample_struct_plain : type_info :=
  { base := spv.OpTypeStruct, definition := 7 }

def sample_float : type_info := { base := spv.OpTypeFloat, size := 32 }

def sample_bool : type_info := { base := spv.OpTypeBool }

def sample_float_q : type_info :=
  { base := spv.OpTypeFloat, size := 32, qualifiers := 4 }

def sample_float_arr : type_info :=
  { base := spv.OpTypeFloat, size := 32, array_length := 3,
    array_lenghth_expression := 7 }

def sample_float_arr0 : type_info :=
  { base := spv.OpTypeFloat, size := 32, array_length := 0,
    array_lenghth_expression := 7 }

def sample_float_rtarr : type_info :=
  { base := spv.OpTypeFloat, size := 32, array_length := -1,
    array_lenghth_expression := 0 }

def sample_fn : function_info :=
  { return_type := sample_float, parameter_list := [sample_bool, sample_float] }

def sample_unsupported : type_info := { base := 99 }

/-- The node literal `add_node` leaves at the end of the target section. -/
def fresh_node (s : parser_state) (sec : section_id) (loc : location)
    (op ty : Nat) : spv_node :=
  { op := op, result := s.next_id, result_type := ty, operands := [],
    index := (s.sections sec).length, loc := loc }

/-- The behaviour of one `convert_type` call, relative to the state it ran
from: the identifier counter does not decrease; well-formedness and every
already-resolvable node survive; and either the request was found in
`_type_lookup` (no state change), or it is an unsupported scalar (result 0,
no state change), or it is materialized: `_type_lookup` grows by the
recursive element entries followed by the request itself, recursive
entries are element shapes (array length 0, no pointer flag, definition 0,
same base) distinct from the request, non-struct entries carry fresh
identifiers below the result, scalar-shaped requests push no recursive
entries, vector requests push only scalar entries, a struct-scalar request
returns its definition without allocating, and any other request returns a
freshly allocated identifier. -/
def ct_post (s : parser_state) (info : type_info) (s' : parser_state)
    (ty : Nat) : Prop :=
  s.next_id ≤ s'.next_id ∧
  (state_wf s → state_wf s' ∧
    ∀ i n, lookup_id s i = some n → lookup_id s' i = some n) ∧
  ((∃ v, find_type s.type_lookup info = some v ∧ s' = s ∧ ty = v) ∨
   (find_type s.type_lookup info = none ∧ unsupported_scalar info = true ∧
     s' = s ∧ ty = 0) ∨
   (find_type s.type_lookup info = none ∧ unsupported_scalar info = false ∧
     ∃ pre, s'.type_lookup = s.type_lookup ++ pre ++ [(info, ty)] ∧
       (∀ e ∈ pre, type_info_eq e.1 info = false ∧ e.1.base = info.base ∧
         e.1.definition = 0 ∧ e.1.array_length = 0 ∧ e.1.is_pointer = false ∧
         (struct_direct e.1 = true → e.2 = 0) ∧
         (struct_direct e.1 = false → s.next_id ≤ e.2 ∧ e.2 < ty)) ∧
       (info.is_array = false ∧ info.is_pointer = false ∧
         info.is_vector = false ∧ info.is_matrix = false → pre = []) ∧
       (info.is_array = false ∧ info.is_pointer = false ∧
         info.is_vector = true → ∀ e ∈ pre, e.1.rows = 1 ∧ e.1.cols = 1) ∧
       (struct_direct info = true →
         ty = info.definition ∧ s'.next_id = s.next_id ∧
         (∀ sec, s'.sections sec = s.sections sec) ∧
         s'.id_lookup = s.id_lookup) ∧
       (struct_direct info = false →
         s.next_id ≤ ty ∧ ty < s'.next_id)))

/-! ## List helper lemmas -/

theorem get?_append_left {α} {l1 l2 : List α} {i : Nat} (h : i < l1.length) :
    (l1 ++ l2)[i]? = l1[i]? := by
  rw [List.getElem?_append]
  exact if_pos h

theorem get?_lt_of_some {α} {l : List α} {i : Nat} {a : α}
    (h : l[i]? = some a) : i < l.length :=
  (List.getElem?_eq_some.mp h).1

theorem list_set_concat {α} (l : List α) (a b : α) :
    (l ++ [a]).set l.length b = l ++ [b] := by
  induction l with
  | nil => rfl
  | cons x t ih => simp [ih]

theorem get?_set_self {α} {l : List α} {i : Nat} {a : α} (h : i < l.length) :
    (l.set i a)[i]? = some a := by
  rw [List.getElem?_set_self']
  simp [List.getElem?_eq_getElem h]

theorem list_modify_length (l : List spv_node) (i : Nat)
    (f : spv_node → spv_node) : (list_modify l i f).length = l.length := by
  unfold list_modify
  cases h : l[i]? <;> simp

theorem list_modify_get_self (l : List spv_node) (i : Nat)
    (f : spv_node → spv_node) : (list_modify l i f)[i]? = (l[i]?).map f := by
  unfold list_modify
  cases h : l[i]? with
  | none => simp [h]
  | some a => simp [h, get?_set_self (get?_lt_of_some h)]

theorem list_modify_get_ne (l : List spv_node) {i j : Nat}
    (f : spv_node → spv_node) (h : i ≠ j) :
    (list_modify l i f)[j]? = l[j]? := by
  unfold list_modify
  cases hh : l[i]? with
  | none => rfl
  | some a => exact List.getElem?_set_ne h

/-! ## Component lemmas for the builder operations -/

theorem update_section_self (f : section_id → List spv_node) (sec : section_id)
    (l : List spv_node) : update_section f sec l sec = l := by
  simp [update_section]

theorem update_section_ne (f : section_id → List spv_node) {x sec : section_id}
    (l : List spv_node) (h : x ≠ sec) : update_section f sec l x = f x := by
  simp [update_section, h]

theorem add_node_snd (s : parser_state) (sec : section_id) (loc : location)
    (op ty : Nat) : (add_node s sec loc op ty).2 = s.next_id := rfl

theorem add_node_next_id (s : parser_state) (sec : section_id) (loc : location)
    (op ty : Nat) : (add_node s sec loc op ty).1.next_id = s.next_id + 1 := rfl

theorem add_node_type_lookup (s : parser_state) (sec : section_id)
    (loc : location) (op ty : Nat) :
    (add_node s sec loc op ty).1.type_lookup = s.type_lookup := rfl

theorem add_node_id_lookup (s : parser_state) (sec : section_id)
    (loc : location) (op ty : Nat) :
    (add_node s sec loc op ty).1.id_lookup
      = s.id_lookup ++ [(sec, (s.sections sec).length)] := rfl

theorem add_node_sections_self (s : parser_state) (sec : section_id)
    (loc : location) (op ty : Nat) :
    (add_node s sec loc op ty).1.sections sec
      = s.sections sec ++ [fresh_node s sec loc op ty] := by
  simp only [add_node, add_node_without_result, modify_node,
    update_section_self, list_modify, List.getElem?_concat_length,
    list_set_concat, fresh_node]

theorem add_node_sections_ne {s : parser_state} {x sec : section_id}
    {loc : location} {op ty : Nat} (h : x ≠ sec) :
    (add_node s sec loc op ty).1.sections x = s.sections x := by
  show update_section (update_section s.sections sec _) sec _ x = _
  rw [update_section_ne _ _ h, update_section_ne _ _ h]

theorem add_node_sections_length (s : parser_state) (sec x : section_id)
    (loc : location) (op ty : Nat) :
    (s.sections x).length ≤ ((add_node s sec loc op ty).1.sections x).length := by
  by_cases h : x = sec
  · subst h; rw [add_node_sections_self]; simp
  · rw [add_node_sections_ne h]

theorem anwr_next_id (s : parser_state) (sec : section_id) (loc : location)
    (op : Nat) : (add_node_without_result s sec loc op).1.next_id = s.next_id := rfl

theorem anwr_id_lookup (s : parser_state) (sec : section_id) (loc : location)
    (op : Nat) : (add_node_without_result s sec loc op).1.id_lookup = s.id_lookup := rfl

theorem anwr_type_lookup (s : parser_state) (sec : section_id) (loc : location)
    (op : Nat) :
    (add_node_without_result s sec loc op).1.type_lookup = s.type_lookup := rfl

theorem anwr_sections_length (s : parser_state) (sec x : section_id)
    (loc : location) (op : Nat) :
    (s.sections x).length
      ≤ ((add_node_without_result s sec loc op).1.sections x).length := by
  show (s.sections x).length ≤ (update_section s.sections sec _ x).length
  by_cases h : x = sec
  · subst h; rw [update_section_self]; simp
  · rw [update_section_ne _ _ h]

theorem anwr_sections_get (s : parser_state) (sec x : section_id)
    (loc : location) (op : Nat) {i : Nat} (h : i < (s.sections x).length) :
    ((add_node_without_result s sec loc op).1.sections x)[i]?
      = (s.sections x)[i]? := by
  show (update_section s.sections sec _ x)[i]? = _
  by_cases hx : x = sec
  · subst hx; rw [update_section_self]; exact get?_append_left h
  · rw [update_section_ne _ _ hx]

theorem add_operand_next_id (s : parser_state) (id v : Nat) :
    (add_operand s id v).next_id = s.next_id := by
  unfold add_operand
  split
  · rfl
  · split <;> rfl

theorem add_operand_id_lookup (s : parser_state) (id v : Nat) :
    (add_operand s id v).id_lookup = s.id_lookup := by
  unfold add_operand
  split
  · rfl
  · split <;> rfl

theorem add_operand_type_lookup (s : parser_state) (id v : Nat) :
    (add_operand s id v).type_lookup = s.type_lookup := by
  unfold add_operand
  split
  · rfl
  · split <;> rfl

theorem add_operand_sections_length (s : parser_state) (id v : Nat)
    (x : section_id) :
    ((add_operand s id v).sections x).length = (s.sections x).length := by
  unfold add_operand
  split
  · rfl
  · split
    · rename_i e heq
      show (update_section s.sections e.1 _ x).length = _
      by_cases hx : x = e.1
      · subst hx; rw [update_section_self]; exact list_modify_length _ _ _
      · rw [update_section_ne _ _ hx]
    · rfl

theorem push_type_sections (s : parser_state) (info : type_info) (ty : Nat)
    (x : section_id) : (push_type s info ty).sections x = s.sections x := rfl

theorem push_type_next_id (s : parser_state) (info : type_info) (ty : Nat) :
    (push_type s info ty).next_id = s.next_id := rfl

theorem push_type_id_lookup (s : parser_state) (info : type_info) (ty : Nat) :
    (push_type s info ty).id_lookup = s.id_lookup := rfl

theorem push_type_type_lookup (s : parser_state) (info : type_info) (ty : Nat) :
    (push_type s info ty).type_lookup = s.type_lookup ++ [(info, ty)] := rfl

theorem lookup_id_push_type (s : parser_state) (info : type_info)
    (ty id : Nat) : lookup_id (push_type s info ty) id = lookup_id s id := rfl

theorem add_operand_of_lt {s : parser_state} {id : Nat} (v : Nat)
    (h : id < 100) : add_operand s id v = s := by
  unfold add_operand
  rw [if_pos h]

theorem add_operand_of_none {s : parser_state} {id : Nat} (v : Nat)
    (h100 : ¬ id < 100) (h : s.id_lookup[id - 100]? = none) :
    add_operand s id v = s := by
  unfold add_operand
  rw [if_neg h100, h]

theorem add_operand_of_some {s : parser_state} {id : Nat} (v : Nat)
    {e : section_id × Nat} (h100 : ¬ id < 100)
    (he : s.id_lookup[id - 100]? = some e) :
    add_operand s id v
      = modify_node s e.1 e.2 (fun n => { n with operands := n.operands ++ [v] }) := by
  unfold add_operand
  rw [if_neg h100, he]

/-! ## `lookup_id` resolution and preservation -/

theorem lookup_some_elim {s : parser_state} {id : Nat} {n : spv_node}
    (h : lookup_id s id = some n) :
    ∃ e, 100 ≤ id ∧ s.id_lookup[id - 100]? = some e ∧
      (s.sections e.1)[e.2]? = some n := by
  unfold lookup_id at h
  split at h
  · exact absurd h (by simp)
  · rename_i h100
    split at h
    · rename_i e heq
      exact ⟨e, by omega, heq, h⟩
    · exact absurd h (by simp)

theorem lookup_id_of_entry {s : parser_state} {id : Nat}
    {e : section_id × Nat} (h100 : 100 ≤ id)
    (he : s.id_lookup[id - 100]? = some e) :
    lookup_id s id = (s.sections e.1)[e.2]? := by
  unfold lookup_id
  rw [if_neg (by omega), he]

theorem nodup_get?_inj {α} {l : List α} {i j : Nat} {a : α} (h : l.Nodup)
    (hi : l[i]? = some a) (hj : l[j]? = some a) : i = j := by
  induction l generalizing i j with
  | nil => simp at hi
  | cons x t ih =>
    rw [List.nodup_cons] at h
    cases i with
    | zero =>
      cases j with
      | zero => rfl
      | succ j' =>
        simp only [List.getElem?_cons_zero, Option.some.injEq] at hi
        subst hi
        exact absurd (List.getElem?_mem (by simpa using hj)) h.1
    | succ i' =>
      cases j with
      | zero =>
        simp only [List.getElem?_cons_zero, Option.some.injEq] at hj
        subst hj
        exact absurd (List.getElem?_mem (by simpa using hi)) h.1
      | succ j' =>
        have := ih h.2 (by simpa using hi) (by simpa using hj)
        omega

/-! ## Well-formedness preservation -/

theorem next_id_ge_100 {s : parser_state} (hwf : state_wf s) :
    100 ≤ s.next_id := by
  rw [hwf.1]
  omega

theorem lookup_lt_next {s : parser_state} {id : Nat} {n : spv_node}
    (hwf : state_wf s) (h : lookup_id s id = some n) : id < s.next_id := by
  obtain ⟨e, h100, he, _⟩ := lookup_some_elim h
  have := get?_lt_of_some he
  have h1 := hwf.1
  omega

theorem state_wf_add_node {s : parser_state} (sec : section_id)
    (loc : location) (op ty : Nat) (hwf : state_wf s) :
    state_wf (add_node s sec loc op ty).1 := by
  obtain ⟨h1, h2, h3⟩ := hwf
  refine ⟨?_, ?_, ?_⟩
  · rw [add_node_next_id, add_node_id_lookup]
    simp [h1]
    omega
  · intro e he
    rw [add_node_id_lookup] at he
    rcases List.mem_append.mp he with he | he
    · calc e.2 < (s.sections e.1).length := h2 e he
        _ ≤ _ := add_node_sections_length s sec e.1 loc op ty
    · rw [List.mem_singleton] at he
      subst he
      rw [add_node_sections_self]
      simp
  · rw [add_node_id_lookup]
    rw [List.nodup_append]
    refine ⟨h3, List.nodup_singleton _, ?_⟩
    intro e he he'
    rw [List.mem_singleton] at he'
    subst he'
    exact absurd (h2 _ he) (by simp)

theorem state_wf_anwr {s : parser_state} (sec : section_id) (loc : location)
    (op : Nat) (hwf : state_wf s) :
    state_wf (add_node_without_result s sec loc op).1 := by
  obtain ⟨h1, h2, h3⟩ := hwf
  refine ⟨?_, ?_, ?_⟩
  · rw [anwr_next_id, anwr_id_lookup]
    exact h1
  · intro e he
    rw [anwr_id_lookup] at he
    calc e.2 < (s.sections e.1).length := h2 e he
      _ ≤ _ := anwr_sections_length s sec e.1 loc op
  · rw [anwr_id_lookup]
    exact h3

theorem state_wf_add_operand {s : parser_state} (id v : Nat)
    (hwf : state_wf s) : state_wf (add_operand s id v) := by
  obtain ⟨h1, h2, h3⟩ := hwf
  refine ⟨?_, ?_, ?_⟩
  · rw [add_operand_next_id, add_operand_id_lookup]
    exact h1
  · intro e he
    rw [add_operand_id_lookup] at he
    rw [add_operand_sections_length]
    exact h2 e he
  · rw [add_operand_id_lookup]
    exact h3

/-! ## Node preservation under the builder operations -/

theorem lookup_id_add_node {s : parser_state} {id : Nat} {n : spv_node}
    (sec : section_id) (loc : location) (op ty : Nat)
    (h : lookup_id s id = some n) :
    lookup_id (add_node s sec loc op ty).1 id = some n := by
  obtain ⟨e, h100, he, hn⟩ := lookup_some_elim h
  have he' : (add_node s sec loc op ty).1.id_lookup[id - 100]? = some e := by
    rw [add_node_id_lookup]
    rw [get?_append_left (get?_lt_of_some he)]
    exact he
  rw [lookup_id_of_entry h100 he']
  by_cases hx : e.1 = sec
  · have hn' : (s.sections sec)[e.2]? = some n := hx ▸ hn
    rw [hx, add_node_sections_self, get?_append_left (get?_lt_of_some hn')]
    exact hn'
  · rw [add_node_sections_ne hx]
    exact hn

theorem lookup_id_anwr {s : parser_state} {id : Nat} {n : spv_node}
    (sec : section_id) (loc : location) (op : Nat)
    (h : lookup_id s id = some n) :
    lookup_id (add_node_without_result s sec loc op).1 id = some n := by
  obtain ⟨e, h100, he, hn⟩ := lookup_some_elim h
  have he' : (add_node_without_result s sec loc op).1.id_lookup[id - 100]? = some e := by
    rw [anwr_id_lookup]
    exact he
  rw [lookup_id_of_entry h100 he']
  rw [anwr_sections_get s sec e.1 loc op (get?_lt_of_some hn)]
  exact hn

theorem lookup_id_add_node_self {s : parser_state} (sec : section_id)
    (loc : location) (op ty : Nat) (hwf : state_wf s) :
    lookup_id (add_node s sec loc op ty).1 s.next_id
      = some (fresh_node s sec loc op ty) := by
  have h100 : 100 ≤ s.next_id := next_id_ge_100 hwf
  have hlen : s.next_id - 100 = s.id_lookup.length := by
    have := hwf.1
    omega
  have he : (add_node s sec loc op ty).1.id_lookup[s.next_id - 100]?
      = some (sec, (s.sections sec).length) := by
    rw [add_node_id_lookup, hlen]
    exact List.getElem?_concat_length _ _
  rw [lookup_id_of_entry h100 he]
  show ((add_node s sec loc op ty).1.sections sec)[(s.sections sec).length]? = _
  rw [add_node_sections_self]
  exact List.getElem?_concat_length _ _

theorem lookup_id_add_operand_self {s : parser_state} {id : Nat} (v : Nat)
    {n : spv_node} (h : lookup_id s id = some n) :
    lookup_id (add_operand s id v) id
      = some { n with operands := n.operands ++ [v] } := by
  obtain ⟨e, h100, he, hn⟩ := lookup_some_elim h
  rw [add_operand_of_some v (by omega) he]
  have he' : (modify_node s e.1 e.2
      (fun m => { m with operands := m.operands ++ [v] })).id_lookup[id - 100]?
      = some e := he
  rw [lookup_id_of_entry h100 he']
  show (update_section s.sections e.1 _ e.1)[e.2]? = _
  rw [update_section_self, list_modify_get_self, hn]
  rfl

theorem lookup_id_add_operand_ne {s : parser_state} {id' id v : Nat}
    {n : spv_node} (hwf : state_wf s) (hne : id' ≠ id)
    (h : lookup_id s id' = some n) :
    lookup_id (add_operand s id v) id' = some n := by
  obtain ⟨e', h100', he', hn'⟩ := lookup_some_elim h
  by_cases h100 : id < 100
  · rw [add_operand_of_lt v h100]
    exact h
  · cases heq : s.id_lookup[id - 100]? with
    | none =>
      rw [add_operand_of_none v h100 heq]
      exact h
    | some e =>
      rw [add_operand_of_some v h100 heq]
      have hee' : (modify_node s e.1 e.2
          (fun m => { m with operands := m.operands ++ [v] })).id_lookup[id' - 100]?
          = some e' := he'
      rw [lookup_id_of_entry h100' hee']
      have hpos : id' - 100 ≠ id - 100 := by omega
      have hee : e' ≠ e := by
        intro hc
        subst hc
        exact hpos (nodup_get?_inj hwf.2.2 he' heq)
      show (update_section s.sections e.1 _ e'.1)[e'.2]? = _
      by_cases hx : e'.1 = e.1
      · rw [hx, update_section_self]
        have hnum : e.2 ≠ e'.2 := by
          intro hc
          exact hee (Prod.ext hx hc.symm)
        rw [list_modify_get_ne _ _ hnum]
        exact hx ▸ hn'
      · rw [update_section_ne _ _ hx]
        exact hn'

theorem lookup_id_add_operand_lt {s : parser_state} {id' : Nat}
    (id v : Nat) {n : spv_node} (hwf : state_wf s) (hge : s.next_id ≤ id)
    (h : lookup_id s id' = some n) :
    lookup_id (add_operand s id v) id' = some n := by
  have := lookup_lt_next hwf h
  exact lookup_id_add_operand_ne hwf (by omega) h

/-! ## `type_info` equality lemmas -/

theorem type_info_eq_refl (t : type_info) : type_info_eq t t = true := by
  simp [type_info_eq]

theorem type_info_eq_fields {a b : type_info} (h : type_info_eq a b = true) :
    a.base = b.base ∧ a.size = b.size ∧ a.rows = b.rows ∧ a.cols = b.cols ∧
    a.is_signed = b.is_signed ∧ a.array_length = b.array_length ∧
    a.definition = b.definition ∧ a.is_pointer = b.is_pointer := by
  simp only [type_info_eq, Bool.and_eq_true, beq_iff_eq] at h
  exact ⟨h.1.1.1.1.1.1.1, h.1.1.1.1.1.1.2, h.1.1.1.1.1.2, h.1.1.1.1.2,
    h.1.1.1.2, h.1.1.2, h.1.2, h.2⟩

theorem type_info_eq_of_fields {a b : type_info} (h1 : a.base = b.base)
    (h2 : a.size = b.size) (h3 : a.rows = b.rows) (h4 : a.cols = b.cols)
    (h5 : a.is_signed = b.is_signed) (h6 : a.array_length = b.array_length)
    (h7 : a.definition = b.definition) (h8 : a.is_pointer = b.is_pointer) :
    type_info_eq a b = true := by
  simp [type_info_eq, h1, h2, h3, h4, h5, h6, h7, h8]

theorem type_info_eq_congr_left {a a' : type_info}
    (h : type_info_eq a a' = true) (b : type_info) :
    type_info_eq a b = type_info_eq a' b := by
  obtain ⟨h1, h2, h3, h4, h5, h6, h7, h8⟩ := type_info_eq_fields h
  simp [type_info_eq, h1, h2, h3, h4, h5, h6, h7, h8]

theorem type_info_eq_congr_right {b b' : type_info}
    (h : type_info_eq b b' = true) (a : type_info) :
    type_info_eq a b = type_info_eq a b' := by
  obtain ⟨h1, h2, h3, h4, h5, h6, h7, h8⟩ := type_info_eq_fields h
  simp [type_info_eq, h1, h2, h3, h4, h5, h6, h7, h8]

theorem eq_false_of_len {a b : type_info} (h : a.array_length ≠ b.array_length) :
    type_info_eq a b = false := by
  cases hb : type_info_eq a b with
  | false => rfl
  | true => exact absurd (type_info_eq_fields hb).2.2.2.2.2.1 h

theorem eq_false_of_ptr {a b : type_info} (h : a.is_pointer ≠ b.is_pointer) :
    type_info_eq a b = false := by
  cases hb : type_info_eq a b with
  | false => rfl
  | true => exact absurd (type_info_eq_fields hb).2.2.2.2.2.2.2 h

theorem eq_false_of_rows {a b : type_info} (h : a.rows ≠ b.rows) :
    type_info_eq a b = false := by
  cases hb : type_info_eq a b with
  | false => rfl
  | true => exact absurd (type_info_eq_fields hb).2.2.1 h

theorem eq_false_of_cols {a b : type_info} (h : a.cols ≠ b.cols) :
    type_info_eq a b = false := by
  cases hb : type_info_eq a b with
  | false => rfl
  | true => exact absurd (type_info_eq_fields hb).2.2.2.1 h

/-! ## `find_type` lemmas -/

theorem find_type_cons (e : type_info × Nat) (l : List (type_info × Nat))
    (t : type_info) :
    find_type (e :: l) t
      = if type_info_eq e.1 t = true then some e.2 else find_type l t := rfl

theorem find_type_none_append {l1 l2 : List (type_info × Nat)}
    {t : type_info} (h : find_type l1 t = none) :
    find_type (l1 ++ l2) t = find_type l2 t := by
  induction l1 with
  | nil => rfl
  | cons e rest ih =>
    rw [List.cons_append, find_type_cons]
    rw [find_type_cons] at h
    by_cases hc : type_info_eq e.1 t = true
    · rw [if_pos hc] at h
      exact absurd h (by simp)
    · rw [if_neg hc] at h
      rw [if_neg hc]
      exact ih h

theorem find_type_some_append {l1 l2 : List (type_info × Nat)}
    {t : type_info} {v : Nat} (h : find_type l1 t = some v) :
    find_type (l1 ++ l2) t = some v := by
  induction l1 with
  | nil => exact absurd h (by simp [find_type])
  | cons e rest ih =>
    rw [List.cons_append, find_type_cons]
    rw [find_type_cons] at h
    by_cases hc : type_info_eq e.1 t = true
    · rw [if_pos hc] at h
      rw [if_pos hc]
      exact h
    · rw [if_neg hc] at h
      rw [if_neg hc]
      exact ih h

theorem find_type_some_mem {l : List (type_info × Nat)} {t : type_info}
    {v : Nat} (h : find_type l t = some v) :
    ∃ e ∈ l, type_info_eq e.1 t = true ∧ e.2 = v := by
  induction l with
  | nil => exact absurd h (by simp [find_type])
  | cons e rest ih =>
    rw [find_type_cons] at h
    by_cases hc : type_info_eq e.1 t = true
    · rw [if_pos hc] at h
      exact ⟨e, List.mem_cons_self e rest, hc, by simpa using h⟩
    · rw [if_neg hc] at h
      obtain ⟨e', he', hee', hv⟩ := ih h
      exact ⟨e', List.mem_cons_of_mem _ he', hee', hv⟩

theorem find_type_none_of_all {l : List (type_info × Nat)} {t : type_info}
    (h : ∀ e ∈ l, type_info_eq e.1 t = false) : find_type l t = none := by
  induction l with
  | nil => rfl
  | cons e rest ih =>
    rw [find_type_cons, if_neg (by simp [h e (List.mem_cons_self e rest)]), ih]
    intro e' he'
    exact h e' (List.mem_cons_of_mem _ he')

theorem find_type_congr {t1 t2 : type_info} (h : type_info_eq t1 t2 = true)
    (l : List (type_info × Nat)) : find_type l t1 = find_type l t2 := by
  induction l with
  | nil => rfl
  | cons e rest ih =>
    rw [find_type_cons, find_type_cons, type_info_eq_congr_right h e.1, ih]

/-! ## Shape bridges for the `type_info` predicates -/

theorem is_array_true_iff {t : type_info} :
    t.is_array = true ↔ t.array_length ≠ 0 := by
  simp [type_info.is_array]

theorem is_array_false_iff {t : type_info} :
    t.is_array = false ↔ t.array_length = 0 := by
  simp [type_info.is_array]

theorem is_vector_true_iff {t : type_info} :
    t.is_vector = true ↔ 1 < t.rows ∧ t.cols = 1 := by
  simp [type_info.is_vector]

theorem is_matrix_true_iff {t : type_info} :
    t.is_matrix = true ↔ 1 ≤ t.rows ∧ 1 < t.cols := by
  simp [type_info.is_matrix]

theorem scalar_element_base (info : type_info) (r c : Nat) :
    (scalar_element info r c).base = info.base := rfl

theorem scalar_element_fields (info : type_info) (r c : Nat) :
    (scalar_element info r c).rows = r ∧ (scalar_element info r c).cols = c ∧
    (scalar_element info r c).array_length = 0 ∧
    (scalar_element info r c).is_pointer = false ∧
    (scalar_element info r c).definition = 0 := ⟨rfl, rfl, rfl, rfl, rfl⟩

/-! ## Recursion-depth lemmas for `convert_type` -/

theorem ct_depth_pos (info : type_info) : 1 ≤ ct_depth info := by
  unfold ct_depth
  omega

theorem ct_depth_le_four (info : type_info) : ct_depth info ≤ 4 := by
  unfold ct_depth
  split <;> split <;> split <;> omega

theorem ct_depth_scalar_element (info : type_info) (r c : Nat) :
    ct_depth (scalar_element info r c)
      = 1 + (if 1 < c then 1 else 0) + (if 1 < r then 1 else 0) := by
  unfold ct_depth
  rw [show (scalar_element info r c).array_length = 0 from rfl,
    show (scalar_element info r c).is_pointer = false from rfl,
    show (scalar_element info r c).cols = c from rfl,
    show (scalar_element info r c).rows = r from rfl]
  rw [if_neg (by simp)]

theorem ct_depth_elem_comp (info : type_info)
    (h : info.array_length ≠ 0 ∨ info.is_pointer = true) :
    ct_depth (scalar_element info info.rows info.cols) < ct_depth info := by
  rw [ct_depth_scalar_element]
  unfold ct_depth
  rw [if_pos h]
  omega

theorem ct_depth_scalar_one (info : type_info) :
    ct_depth (scalar_element info 1 1) = 1 := by
  rw [ct_depth_scalar_element]
  decide

theorem ct_depth_two_of_vector {info : type_info}
    (h : info.is_vector = true) : 2 ≤ ct_depth info := by
  rw [is_vector_true_iff] at h
  unfold ct_depth
  rw [if_pos h.1]
  omega

/-! ## Chains of operand additions -/

theorem state_wf_push_type {s : parser_state} (info : type_info) (ty : Nat)
    (h : state_wf s) : state_wf (push_type s info ty) := h

theorem foldl_ao_next (id : Nat) (ops : List Nat) (s : parser_state) :
    (ops.foldl (fun acc v => add_operand acc id v) s).next_id = s.next_id := by
  induction ops generalizing s with
  | nil => rfl
  | cons a rest ih =>
    rw [List.foldl_cons, ih, add_operand_next_id]

theorem foldl_ao_id_lookup (id : Nat) (ops : List Nat) (s : parser_state) :
    (ops.foldl (fun acc v => add_operand acc id v) s).id_lookup = s.id_lookup := by
  induction ops generalizing s with
  | nil => rfl
  | cons a rest ih =>
    rw [List.foldl_cons, ih, add_operand_id_lookup]

theorem foldl_ao_type_lookup (id : Nat) (ops : List Nat) (s : parser_state) :
    (ops.foldl (fun acc v => add_operand acc id v) s).type_lookup
      = s.type_lookup := by
  induction ops generalizing s with
  | nil => rfl
  | cons a rest ih =>
    rw [List.foldl_cons, ih, add_operand_type_lookup]

theorem foldl_ao_wf (id : Nat) (ops : List Nat) (s : parser_state)
    (hwf : state_wf s) :
    state_wf (ops.foldl (fun acc v => add_operand acc id v) s) := by
  induction ops generalizing s with
  | nil => exact hwf
  | cons a rest ih =>
    rw [List.foldl_cons]
    exact ih _ (state_wf_add_operand id a hwf)

theorem foldl_ao_pres (id : Nat) (ops : List Nat) (s : parser_state)
    (hwf : state_wf s) {i : Nat} {n : spv_node} (hne : i ≠ id)
    (h : lookup_id s i = some n) :
    lookup_id (ops.foldl (fun acc v => add_operand acc id v) s) i = some n := by
  induction ops generalizing s with
  | nil => exact h
  | cons a rest ih =>
    rw [List.foldl_cons]
    exact ih _ (state_wf_add_operand id a hwf)
      (lookup_id_add_operand_ne hwf hne h)

theorem foldl_ao_self (id : Nat) (ops : List Nat) (s : parser_state)
    (hwf : state_wf s) {n : spv_node} (h : lookup_id s id = some n) :
    lookup_id (ops.foldl (fun acc v => add_operand acc id v) s) id
      = some { n with operands := n.operands ++ ops } := by
  induction ops generalizing s n with
  | nil => simpa using h
  | cons a rest ih =>
    rw [List.foldl_cons]
    have h1 := lookup_id_add_operand_self a h
    have h2 := ih (add_operand s id a) (state_wf_add_operand id a hwf) h1
    simpa using h2

theorem chain_lookup_self {s1 : parser_state} (sec : section_id)
    (loc : location) (op tyv : Nat) (ops : List Nat) (hwf : state_wf s1) :
    lookup_id (ops.foldl
        (fun acc v => add_operand acc (add_node s1 sec loc op tyv).2 v)
        (add_node s1 sec loc op tyv).1) (add_node s1 sec loc op tyv).2
      = some { op := op, result := s1.next_id, result_type := tyv,
               operands := ops, index := (s1.sections sec).length, loc := loc } := by
  have h0 := lookup_id_add_node_self sec loc op tyv hwf
  have h1 := foldl_ao_self (add_node s1 sec loc op tyv).2 ops _
    (state_wf_add_node sec loc op tyv hwf)
    (show lookup_id (add_node s1 sec loc op tyv).1
        (add_node s1 sec loc op tyv).2
      = some (fresh_node s1 sec loc op tyv) from h0)
  simpa [fresh_node] using h1

theorem chain_pres {s1 : parser_state} (sec : section_id) (loc : location)
    (op tyv : Nat) (ops : List Nat) (hwf : state_wf s1) {i : Nat}
    {n : spv_node} (h : lookup_id s1 i = some n) :
    lookup_id (ops.foldl
        (fun acc v => add_operand acc (add_node s1 sec loc op tyv).2 v)
        (add_node s1 sec loc op tyv).1) i = some n := by
  have hlt := lookup_lt_next hwf h
  refine foldl_ao_pres _ ops _ (state_wf_add_node sec loc op tyv hwf) ?_
    (lookup_id_add_node sec loc op tyv h)
  rw [add_node_snd]
  omega

theorem chain_wf {s1 : parser_state} (sec : section_id) (loc : location)
    (op tyv : Nat) (ops : List Nat) (hwf : state_wf s1) :
    state_wf (ops.foldl
        (fun acc v => add_operand acc (add_node s1 sec loc op tyv).2 v)
        (add_node s1 sec loc op tyv).1) :=
  foldl_ao_wf _ ops _ (state_wf_add_node sec loc op tyv hwf)

theorem ct_depth_elem_mat (info : type_info) (h3 : 1 < info.cols) :
    ct_depth (scalar_element info info.rows 1) < ct_depth info := by
  rw [ct_depth_scalar_element]
  unfold ct_depth
  rw [if_pos h3, show (if (1:Nat) < 1 then (1:Nat) else 0) = 0 from rfl]
  omega



theorem struct_direct_shape {t : type_info} (h : struct_direct t = true) :
    t.is_array = false ∧ t.is_pointer = false ∧ t.is_vector = false ∧
    t.is_matrix = false := by
  simp only [struct_direct, Bool.and_eq_true, Bool.not_eq_true'] at h
  exact ⟨h.1.1.1.2, h.1.1.2, h.1.2, h.2⟩

theorem struct_direct_base {t : type_info} (h : struct_direct t = true) :
    t.base = spv.OpTypeStruct := by
  simp only [struct_direct, Bool.and_eq_true, beq_iff_eq] at h
  exact h.1.1.1.1

theorem struct_direct_false_of_base {t : type_info}
    (h : t.base ≠ spv.OpTypeStruct) : struct_direct t = false := by
  cases hb : struct_direct t with
  | false => rfl
  | true => exact absurd (struct_direct_base hb) h

/-- Digest the element-conversion postcondition of an array or pointer
request: every new interning entry is an element shape distinct from any
type whose array length or pointer flag is nontrivial. -/
theorem digest_A {s s_e : parser_state} {elem : type_info}
    (info : type_info) {elemtype : Nat} (hpost : ct_post s elem s_e elemtype)
    (hbase : elem.base = info.base) (hdef : elem.definition = 0)
    (hlen : elem.array_length = 0) (hptr : elem.is_pointer = false)
    (hne : ∀ t : type_info, t.array_length = 0 → t.is_pointer = false →
      type_info_eq t info = false) :
    ∃ pre, s_e.type_lookup = s.type_lookup ++ pre ∧
      (∀ e ∈ pre, type_info_eq e.1 info = false ∧ e.1.base = info.base ∧
        e.1.definition = 0 ∧ e.1.array_length = 0 ∧ e.1.is_pointer = false ∧
        (struct_direct e.1 = true → e.2 = 0) ∧
        (struct_direct e.1 = false → s.next_id ≤ e.2 ∧ e.2 < s_e.next_id)) := by
  obtain ⟨hA, hB, hC⟩ := hpost
  rcases hC with ⟨v, hfe, hse, hve⟩ | ⟨hfe, hue, hse, hve⟩ |
    ⟨hfe, hue, pre_e, htl, hent, hs0, hs1, hsd, hnsd⟩
  · exact ⟨[], by rw [hse]; simp, by intro e he; simp at he⟩
  · exact ⟨[], by rw [hse]; simp, by intro e he; simp at he⟩
  · refine ⟨pre_e ++ [(elem, elemtype)], by rw [htl, List.append_assoc], ?_⟩
    intro e he
    rcases List.mem_append.mp he with he | he
    · obtain ⟨q1, q2, q3, q4, q5, q6, q7⟩ := hent e he
      refine ⟨hne e.1 q4 q5, q2.trans hbase, q3, q4, q5, q6, ?_⟩
      intro hnsde
      obtain ⟨b1, b2⟩ := q7 hnsde
      cases hsde : struct_direct elem with
      | true =>
        have hpre : pre_e = [] := hs0 (struct_direct_shape hsde)
        rw [hpre] at he
        simp at he
      | false =>
        obtain ⟨c1, c2⟩ := hnsd hsde
        exact ⟨b1, by omega⟩
    · rw [List.mem_singleton] at he
      subst he
      refine ⟨hne elem hlen hptr, hbase, hdef, hlen, hptr, ?_, ?_⟩
      · intro hsde
        rw [(hsd hsde).1, hdef]
      · intro hsde
        exact hnsd hsde

/-- Assemble the `ct_post` of a materializing composite branch from the
digested element facts and the emitted composite node. -/
theorem ct_post_comp {s s_e : parser_state} {info : type_info}
    (op : Nat) (ops : List Nat)
    (hfind : find_type s.type_lookup info = none)
    (huns : unsupported_scalar info = false)
    (hsd : struct_direct info = false)
    (hnext_e : s.next_id ≤ s_e.next_id)
    (hwf_e : state_wf s → state_wf s_e ∧
      ∀ i n, lookup_id s i = some n → lookup_id s_e i = some n)
    (pre : List (type_info × Nat))
    (htl_e : s_e.type_lookup = s.type_lookup ++ pre)
    (hent : ∀ e ∈ pre, type_info_eq e.1 info = false ∧ e.1.base = info.base ∧
      e.1.definition = 0 ∧ e.1.array_length = 0 ∧ e.1.is_pointer = false ∧
      (struct_direct e.1 = true → e.2 = 0) ∧
      (struct_direct e.1 = false → s.next_id ≤ e.2 ∧ e.2 < s_e.next_id))
    (hS0 : info.is_array = false ∧ info.is_pointer = false ∧
      info.is_vector = false ∧ info.is_matrix = false → pre = [])
    (hS1 : info.is_array = false ∧ info.is_pointer = false ∧
      info.is_vector = true → ∀ e ∈ pre, e.1.rows = 1 ∧ e.1.cols = 1) :
    ct_post s info
      (push_type (ops.foldl
        (fun acc v => add_operand acc (add_node s_e section_id.variables {} op 0).2 v)
        (add_node s_e section_id.variables {} op 0).1) info
        (add_node s_e section_id.variables {} op 0).2)
      (add_node s_e section_id.variables {} op 0).2 := by
  refine ⟨?_, ?_, Or.inr (Or.inr ⟨hfind, huns, pre, ?_, ?_, ?_, hS1, ?_, ?_⟩)⟩
  · rw [push_type_next_id, foldl_ao_next, add_node_next_id]
    omega
  · intro hwf
    obtain ⟨hwfe, hprese⟩ := hwf_e hwf
    refine ⟨state_wf_push_type _ _ (chain_wf section_id.variables {} op 0 ops hwfe), ?_⟩
    intro i n h
    exact chain_pres section_id.variables {} op 0 ops hwfe (hprese i n h)
  · rw [push_type_type_lookup, foldl_ao_type_lookup, add_node_type_lookup,
      htl_e, List.append_assoc, add_node_snd]
  · intro e he
    obtain ⟨q1, q2, q3, q4, q5, q6, q7⟩ := hent e he
    refine ⟨q1, q2, q3, q4, q5, q6, ?_⟩
    intro hsde
    obtain ⟨b1, b2⟩ := q7 hsde
    rw [add_node_snd]
    exact ⟨b1, b2⟩
  · exact hS0
  · intro h
    rw [hsd] at h
    cases h
  · intro _
    rw [add_node_snd]
    refine ⟨hnext_e, ?_⟩
    rw [push_type_next_id, foldl_ao_next, add_node_next_id]
    omega

theorem ct_spec : ∀ (fuel : Nat) (info : type_info) (s : parser_state),
    ct_depth info ≤ fuel →
    ct_post s info (convert_type_fuel fuel s info).1
      (convert_type_fuel fuel s info).2 := by
  intro fuel
  induction fuel with
  | zero =>
    intro info s hd
    exact absurd hd (by have := ct_depth_pos info; omega)
  | succ fuel ih =>
    intro info s hd
    rcases hfind : find_type s.type_lookup info with _ | v
    case some =>
      simp only [convert_type_fuel, hfind]
      exact ⟨le_refl _, fun hwf => ⟨hwf, fun i n h => h⟩, Or.inl ⟨v, hfind, rfl, rfl⟩⟩
    case none =>
      simp only [convert_type_fuel, hfind]
      by_cases harr : info.is_array = true
      · simp only [harr, if_true]
        by_cases hpos : 0 < info.array_length
        · simp only [if_pos hpos]
          have hlen0 : info.array_length ≠ 0 := is_array_true_iff.mp harr
          have hdep : ct_depth (scalar_element info info.rows info.cols) ≤ fuel := by
            have := ct_depth_elem_comp info (Or.inl hlen0)
            omega
          have hpost := ih (scalar_element info info.rows info.cols) s hdep
          have hne : ∀ t : type_info, t.array_length = 0 → t.is_pointer = false →
              type_info_eq t info = false := by
            intro t h1 _
            refine eq_false_of_len ?_
            rw [h1]
            omega
          obtain ⟨pre, htl, hent⟩ := digest_A info hpost rfl rfl rfl rfl hne
          exact ct_post_comp spv.OpTypeArray
            [(convert_type_fuel fuel s (scalar_element info info.rows info.cols)).2,
             info.array_lenghth_expression]
            hfind (by simp [unsupported_scalar, harr])
            (by simp [struct_direct, harr])
            hpost.1 hpost.2.1 pre htl hent
            (by intro h; exact absurd harr (by simp [h.1]))
            (by intro h; exact absurd harr (by simp [h.1]))
        · simp only [if_neg hpos]
          have hlen0 : info.array_length ≠ 0 := is_array_true_iff.mp harr
          have hdep : ct_depth (scalar_element info info.rows info.cols) ≤ fuel := by
            have := ct_depth_elem_comp info (Or.inl hlen0)
            omega
          have hpost := ih (scalar_element info info.rows info.cols) s hdep
          have hne : ∀ t : type_info, t.array_length = 0 → t.is_pointer = false →
              type_info_eq t info = false := by
            intro t h1 _
            refine eq_false_of_len ?_
            rw [h1]
            omega
          obtain ⟨pre, htl, hent⟩ := digest_A info hpost rfl rfl rfl rfl hne
          exact ct_post_comp spv.OpTypeRuntimeArray
            [(convert_type_fuel fuel s (scalar_element info info.rows info.cols)).2]
            hfind (by simp [unsupported_scalar, harr])
            (by simp [struct_direct, harr])
            hpost.1 hpost.2.1 pre htl hent
            (by intro h; exact absurd harr (by simp [h.1]))
            (by intro h; exact absurd harr (by simp [h.1]))
      · rw [if_neg harr]
        have hfa : info.is_array = false := by
          cases hx : info.is_array with
          | false => rfl
          | true => exact absurd hx harr
        have hlen0 : info.array_length = 0 := is_array_false_iff.mp hfa
        by_cases hptr : info.is_pointer = true
        · rw [if_pos hptr]
          have hdep : ct_depth (scalar_element info info.rows info.cols) ≤ fuel := by
            have := ct_depth_elem_comp info (Or.inr hptr)
            omega
          have hpost := ih (scalar_element info info.rows info.cols) s hdep
          have hne : ∀ t : type_info, t.array_length = 0 → t.is_pointer = false →
              type_info_eq t info = false := by
            intro t _ h2
            refine eq_false_of_ptr ?_
            rw [h2, hptr]
            simp
          obtain ⟨pre, htl, hent⟩ := digest_A info hpost rfl rfl rfl rfl hne
          exact ct_post_comp spv.OpTypePointer
            [spv.StorageClassFunction,
             (convert_type_fuel fuel s (scalar_element info info.rows info.cols)).2]
            hfind (by simp [unsupported_scalar, hptr])
            (by simp [struct_direct, hptr])
            hpost.1 hpost.2.1 pre htl hent
            (by intro h; exact absurd hptr (by simp [h.2.1]))
            (by intro h; exact absurd hptr (by simp [h.2.1]))
        · rw [if_neg hptr]
          have hptr0 : info.is_pointer = false := by
            cases hx : info.is_pointer with
            | false => rfl
            | true => exact absurd hx hptr
          by_cases hvec : info.is_vector = true
          · rw [if_pos hvec]
            obtain ⟨h1r, h1c⟩ := is_vector_true_iff.mp hvec
            have hdep : ct_depth (scalar_element info 1 1) ≤ fuel := by
              rw [ct_depth_scalar_one]
              have := ct_depth_two_of_vector hvec
              omega
            have hpost := ih (scalar_element info 1 1) s hdep
            have huns : unsupported_scalar info = false := by
              simp [unsupported_scalar, hvec]
            have hsdi : struct_direct info = false := by
              simp [struct_direct, hvec]
            obtain ⟨hA, hB, hC⟩ := hpost
            rcases hC with ⟨v, hfe, hse, hve⟩ | ⟨hfe, hue, hse, hve⟩ |
              ⟨hfe, hue, pre_e, htl, hent_e, hs0, hs1, hsd_e, hnsd_e⟩
            · exact ct_post_comp spv.OpTypeVector
                [(convert_type_fuel fuel s (scalar_element info 1 1)).2, info.rows]
                hfind huns hsdi hA hB [] (by rw [hse]; simp)
                (by intro e he; simp at he)
                (by intro h; exact absurd hvec (by simp [h.2.2]))
                (by intro _ e he; simp at he)
            · exact ct_post_comp spv.OpTypeVector
                [(convert_type_fuel fuel s (scalar_element info 1 1)).2, info.rows]
                hfind huns hsdi hA hB [] (by rw [hse]; simp)
                (by intro e he; simp at he)
                (by intro h; exact absurd hvec (by simp [h.2.2]))
                (by intro _ e he; simp at he)
            · have hpre0 : pre_e = [] := hs0 ⟨rfl, rfl, rfl, rfl⟩
              subst hpre0
              refine ct_post_comp spv.OpTypeVector
                [(convert_type_fuel fuel s (scalar_element info 1 1)).2, info.rows]
                hfind huns hsdi hA hB
                [(scalar_element info 1 1,
                  (convert_type_fuel fuel s (scalar_element info 1 1)).2)]
                (by rw [htl]; simp) ?_ ?_ ?_
              · intro e he
                rw [List.mem_singleton] at he
                subst he
                refine ⟨eq_false_of_rows (by show (1 : Nat) ≠ info.rows; omega),
                  rfl, rfl, rfl, rfl, ?_, ?_⟩
                · intro hsde
                  rw [(hsd_e hsde).1]
                  rfl
                · intro hsde
                  exact hnsd_e hsde
              · intro h
                exact absurd hvec (by simp [h.2.2])
              · intro _ e he
                rw [List.mem_singleton] at he
                subst he
                exact ⟨rfl, rfl⟩
          · rw [if_neg hvec]
            by_cases hmat : info.is_matrix = true
            · rw [if_pos hmat]
              obtain ⟨hmr, hmc⟩ := is_matrix_true_iff.mp hmat
              have hdep : ct_depth (scalar_element info info.rows 1) ≤ fuel := by
                have := ct_depth_elem_mat info hmc
                omega
              have hpost := ih (scalar_element info info.rows 1) s hdep
              have huns : unsupported_scalar info = false := by
                simp [unsupported_scalar, hmat]
              have hsdi : struct_direct info = false := by
                simp [struct_direct, hmat]
              have hcol1 : (scalar_element info info.rows 1).cols = 1 := rfl
              have hnec : ∀ t : type_info, t.cols = 1 → type_info_eq t info = false := by
                intro t h1
                refine eq_false_of_cols ?_
                rw [h1]
                omega
              obtain ⟨hA, hB, hC⟩ := hpost
              rcases hC with ⟨v, hfe, hse, hve⟩ | ⟨hfe, hue, hse, hve⟩ |
                ⟨hfe, hue, pre_e, htl, hent_e, hs0, hs1, hsd_e, hnsd_e⟩
              · exact ct_post_comp spv.OpTypeMatrix
                  [(convert_type_fuel fuel s (scalar_element info info.rows 1)).2, info.cols]
                  hfind huns hsdi hA hB [] (by rw [hse]; simp)
                  (by intro e he; simp at he)
                  (by intro h; exact absurd hmat (by simp [h.2.2]))
                  (by intro _ e he; simp at he)
              · exact ct_post_comp spv.OpTypeMatrix
                  [(convert_type_fuel fuel s (scalar_element info info.rows 1)).2, info.cols]
                  hfind huns hsdi hA hB [] (by rw [hse]; simp)
                  (by intro e he; simp at he)
                  (by intro h; exact absurd hmat (by simp [h.2.2]))
                  (by intro _ e he; simp at he)
              · have hentpre : ∀ e ∈ pre_e, e.1.cols = 1 := by
                  by_cases hrv : 1 < info.rows
                  · have hev : (scalar_element info info.rows 1).is_vector = true := by
                      simp only [type_info.is_vector, scalar_element]
                      simp [hrv]
                    intro e he
                    exact (hs1 ⟨rfl, rfl, hev⟩ e he).2
                  · have hev : (scalar_element info info.rows 1).is_vector = false := by
                      simp only [type_info.is_vector, scalar_element]
                      simp [hrv]
                    have hem : (scalar_element info info.rows 1).is_matrix = false := by
                      simp [type_info.is_matrix, scalar_element]
                    have hpre0 : pre_e = [] := hs0 ⟨rfl, rfl, hev, hem⟩
                    rw [hpre0]
                    intro e he
                    simp at he
                refine ct_post_comp spv.OpTypeMatrix
                  [(convert_type_fuel fuel s (scalar_element info info.rows 1)).2, info.cols]
                  hfind huns hsdi hA hB
                  (pre_e ++ [(scalar_element info info.rows 1,
                    (convert_type_fuel fuel s (scalar_element info info.rows 1)).2)])
                  (by rw [htl, List.append_assoc]) ?_ ?_ ?_
                · intro e he
                  rcases List.mem_append.mp he with he | he
                  · obtain ⟨q1, q2, q3, q4, q5, q6, q7⟩ := hent_e e he
                    refine ⟨hnec e.1 (hentpre e he), q2, q3, q4, q5, q6, ?_⟩
                    intro hsde
                    obtain ⟨b1, b2⟩ := q7 hsde
                    cases hsdel : struct_direct (scalar_element info info.rows 1) with
                    | true =>
                      obtain ⟨w1, w2, w3, w4⟩ := struct_direct_shape hsdel
                      have hpre0 : pre_e = [] := hs0 ⟨w1, w2, w3, w4⟩
                      rw [hpre0] at he
                      simp at he
                    | false =>
                      obtain ⟨c1, c2⟩ := hnsd_e hsdel
                      exact ⟨b1, by omega⟩
                  · rw [List.mem_singleton] at he
                    subst he
                    refine ⟨hnec _ hcol1, rfl, rfl, rfl, rfl, ?_, ?_⟩
                    · intro hsde
                      rw [(hsd_e hsde).1]
                      rfl
                    · intro hsde
                      exact hnsd_e hsde
                · intro h
                  exact absurd hmat (by simp [h.2.2])
                · intro h
                  exact absurd hvec (by simp [h.2.2])
            · rw [if_neg hmat]
              have hvec0 : info.is_vector = false := by
                cases hx : info.is_vector with
                | false => rfl
                | true => exact absurd hx hvec
              have hmat0 : info.is_matrix = false := by
                cases hx : info.is_matrix with
                | false => rfl
                | true => exact absurd hx hmat
              by_cases hb1 : (info.base == spv.OpTypeVoid) = true
              · rw [if_pos hb1]
                have hbase : info.base = spv.OpTypeVoid := eq_of_beq hb1
                exact ct_post_comp spv.OpTypeVoid []
                  hfind (by simp [unsupported_scalar, hbase])
                  (struct_direct_false_of_base (by rw [hbase]; decide))
                  (le_refl _) (fun hwf => ⟨hwf, fun i n h => h⟩)
                  [] (by simp) (by intro e he; simp at he)
                  (fun _ => rfl) (by intro _ e he; simp at he)
              · rw [if_neg hb1]
                by_cases hb2 : (info.base == spv.OpTypeBool) = true
                · rw [if_pos hb2]
                  have hbase : info.base = spv.OpTypeBool := eq_of_beq hb2
                  exact ct_post_comp spv.OpTypeBool []
                    hfind (by simp [unsupported_scalar, hbase])
                    (struct_direct_false_of_base (by rw [hbase]; decide))
                    (le_refl _) (fun hwf => ⟨hwf, fun i n h => h⟩)
                    [] (by simp) (by intro e he; simp at he)
                    (fun _ => rfl) (by intro _ e he; simp at he)
                · rw [if_neg hb2]
                  by_cases hb3 : (info.base == spv.OpTypeFloat) = true
                  · rw [if_pos hb3]
                    have hbase : info.base = spv.OpTypeFloat := eq_of_beq hb3
                    exact ct_post_comp spv.OpTypeFloat [info.size]
                      hfind (by simp [unsupported_scalar, hbase])
                      (struct_direct_false_of_base (by rw [hbase]; decide))
                      (le_refl _) (fun hwf => ⟨hwf, fun i n h => h⟩)
                      [] (by simp) (by intro e he; simp at he)
                      (fun _ => rfl) (by intro _ e he; simp at he)
                  · rw [if_neg hb3]
                    by_cases hb4 : (info.base == spv.OpTypeInt) = true
                    · rw [if_pos hb4]
                      have hbase : info.base = spv.OpTypeInt := eq_of_beq hb4
                      exact ct_post_comp spv.OpTypeInt [info.size, if info.is_signed = true then 1 else 0]
                        hfind (by simp [unsupported_scalar, hbase])
                        (struct_direct_false_of_base (by rw [hbase]; decide))
                        (le_refl _) (fun hwf => ⟨hwf, fun i n h => h⟩)
                        [] (by simp) (by intro e he; simp at he)
                        (fun _ => rfl) (by intro _ e he; simp at he)
                    · rw [if_neg hb4]
                      by_cases hb5 : (info.base == spv.OpTypeStruct) = true
                      · rw [if_pos hb5]
                        have hbase : info.base = spv.OpTypeStruct := eq_of_beq hb5
                        have hsdt : struct_direct info = true := by
                          simp [struct_direct, hbase, hfa, hptr0, hvec0, hmat0]
                        refine ⟨le_refl _, fun hwf => ⟨hwf, fun i n h => h⟩,
                          Or.inr (Or.inr ⟨hfind, by simp [unsupported_scalar, hbase],
                            [], ?_, ?_, fun _ => rfl, ?_, ?_, ?_⟩)⟩
                        · rw [push_type_type_lookup]
                          simp
                        · intro e he
                          simp at he
                        · intro _ e he
                          simp at he
                        · intro _
                          exact ⟨rfl, rfl, fun sec => rfl, rfl⟩
                        · intro h
                          rw [hsdt] at h
                          cases h
                      · rw [if_neg hb5]
                        by_cases hb6 : (info.base == spv.OpTypeImage) = true
                        · rw [if_pos hb6]
                          have hbase : info.base = spv.OpTypeImage := eq_of_beq hb6
                          exact ct_post_comp spv.OpTypeImage [info.definition, spv.Dim2D, 0, 0, 0, 1, spv.ImageFormatRgba8]
                            hfind (by simp [unsupported_scalar, hbase])
                            (struct_direct_false_of_base (by rw [hbase]; decide))
                            (le_refl _) (fun hwf => ⟨hwf, fun i n h => h⟩)
                            [] (by simp) (by intro e he; simp at he)
                            (fun _ => rfl) (by intro _ e he; simp at he)
                        · rw [if_neg hb6]
                          by_cases hb7 : (info.base == spv.OpTypeSampledImage) = true
                          · rw [if_pos hb7]
                            have hbase : info.base = spv.OpTypeSampledImage := eq_of_beq hb7
                            exact ct_post_comp spv.OpTypeSampledImage [info.definition]
                              hfind (by simp [unsupported_scalar, hbase])
                              (struct_direct_false_of_base (by rw [hbase]; decide))
                              (le_refl _) (fun hwf => ⟨hwf, fun i n h => h⟩)
                              [] (by simp) (by intro e he; simp at he)
                              (fun _ => rfl) (by intro _ e he; simp at he)
                          · rw [if_neg hb7]
                            have hbf : ∀ K : Nat, (info.base == K) = false →
                                (info.base != K) = true := by
                              intro K hK
                              simp [bne, hK]
                            have huns : unsupported_scalar info = true := by
                              simp only [unsupported_scalar, Bool.and_eq_true]
                              refine ⟨⟨⟨⟨⟨⟨⟨⟨⟨⟨?_, ?_⟩, ?_⟩, ?_⟩, ?_⟩, ?_⟩, ?_⟩, ?_⟩, ?_⟩, ?_⟩, ?_⟩ <;>
                                simp [hfa, hptr0, hvec0, hmat0, bne]
                              · intro hx
                                exact hb1 (by simp [hx])
                              · intro hx
                                exact hb2 (by simp [hx])
                              · intro hx
                                exact hb3 (by simp [hx])
                              · intro hx
                                exact hb4 (by simp [hx])
                              · intro hx
                                exact hb5 (by simp [hx])
                              · intro hx
                                exact hb6 (by simp [hx])
                              · intro hx
                                exact hb7 (by simp [hx])
                            exact ⟨le_refl _, fun hwf => ⟨hwf, fun i n h => h⟩,
                              Or.inr (Or.inl ⟨hfind, huns, rfl, rfl⟩)⟩

/-- Raising the fuel of an adequately fuelled run does not change it. -/
theorem ct_fuel_succ : ∀ (fuel : Nat) (info : type_info) (s : parser_state),
    ct_depth info ≤ fuel →
    convert_type_fuel (fuel + 1) s info = convert_type_fuel fuel s info := by
  intro fuel
  induction fuel with
  | zero =>
    intro info s hd
    exact absurd hd (by have := ct_depth_pos info; omega)
  | succ fuel ih =>
    intro info s hd
    conv_lhs => rw [convert_type_fuel]
    conv_rhs => rw [convert_type_fuel]
    rcases hfind : find_type s.type_lookup info with _ | v
    · by_cases harr : info.is_array = true
      · have hlen0 : info.array_length ≠ 0 := is_array_true_iff.mp harr
        have hdep : ct_depth (scalar_element info info.rows info.cols) ≤ fuel := by
          have := ct_depth_elem_comp info (Or.inl hlen0)
          omega
        rw [if_pos harr, if_pos harr,
          ih (scalar_element info info.rows info.cols) s hdep]
      · rw [if_neg harr, if_neg harr]
        by_cases hptr : info.is_pointer = true
        · have hdep : ct_depth (scalar_element info info.rows info.cols) ≤ fuel := by
            have := ct_depth_elem_comp info (Or.inr hptr)
            omega
          rw [if_pos hptr, if_pos hptr,
            ih (scalar_element info info.rows info.cols) s hdep]
        · rw [if_neg hptr, if_neg hptr]
          by_cases hvec : info.is_vector = true
          · have hdep : ct_depth (scalar_element info 1 1) ≤ fuel := by
              rw [ct_depth_scalar_one]
              have := ct_depth_two_of_vector hvec
              omega
            rw [if_pos hvec, if_pos hvec, ih (scalar_element info 1 1) s hdep]
          · rw [if_neg hvec, if_neg hvec]
            by_cases hmat : info.is_matrix = true
            · have hdep : ct_depth (scalar_element info info.rows 1) ≤ fuel := by
                have := ct_depth_elem_mat info (is_matrix_true_iff.mp hmat).2
                omega
              rw [if_pos hmat, if_pos hmat,
                ih (scalar_element info info.rows 1) s hdep]
            · rw [if_neg hmat, if_neg hmat]
    · rfl

/-- Any fuel at least the recursion depth computes `convert_type`. -/
theorem convert_type_fuel_ge {info : type_info} {fuel : Nat}
    (s : parser_state) (h : ct_depth info ≤ fuel) :
    convert_type_fuel fuel s info = convert_type s info := by
  have key : ∀ (m k : Nat), ct_depth info ≤ m →
      convert_type_fuel (m + k) s info = convert_type_fuel m s info := by
    intro m k hm
    induction k with
    | zero => rfl
    | succ k ihk =>
      have : m + (k + 1) = (m + k) + 1 := by omega
      rw [this, ct_fuel_succ (m + k) info s (by omega), ihk]
  have h1 := key (ct_depth info) (fuel - ct_depth info) (le_refl _)
  have h2 := key (ct_depth info) (4 - ct_depth info) (le_refl _)
  have e1 : ct_depth info + (fuel - ct_depth info) = fuel := by omega
  have e2 : ct_depth info + (4 - ct_depth info) = 4 := by
    have := ct_depth_le_four info
    omega
  rw [e1] at h1
  rw [e2] at h2
  unfold convert_type
  rw [h1, h2]

/-- The `convert_type` postcondition, at the canonical fuel. -/
theorem ct_post_convert_type (s : parser_state) (info : type_info) :
    ct_post s info (convert_type s info).1 (convert_type s info).2 :=
  ct_spec 4 info s (ct_depth_le_four info)

/-! ## Corollaries of the `convert_type` postcondition -/

theorem struct_direct_congr {a b : type_info} (h : type_info_eq a b = true) :
    struct_direct a = struct_direct b := by
  obtain ⟨h1, h2, h3, h4, h5, h6, h7, h8⟩ := type_info_eq_fields h
  simp [struct_direct, type_info.is_array, type_info.is_vector,
    type_info.is_matrix, h1, h3, h4, h6, h8]

theorem unsupported_congr {a b : type_info} (h : type_info_eq a b = true) :
    unsupported_scalar a = unsupported_scalar b := by
  obtain ⟨h1, h2, h3, h4, h5, h6, h7, h8⟩ := type_info_eq_fields h
  simp [unsupported_scalar, type_info.is_array, type_info.is_vector,
    type_info.is_matrix, h1, h3, h4, h6, h8]

theorem unsupported_len {t : type_info} (h : unsupported_scalar t = true) :
    t.array_length = 0 := by
  simp only [unsupported_scalar, Bool.and_eq_true, Bool.not_eq_true'] at h
  exact is_array_false_iff.mp h.1.1.1.1.1.1.1.1.1.1

theorem unsupported_false_of_struct {t : type_info}
    (h : struct_direct t = true) : unsupported_scalar t = false := by
  have hb := struct_direct_base h
  simp [unsupported_scalar, hb]

theorem ct_found {s : parser_state} {info : type_info} {v : Nat}
    (h : find_type s.type_lookup info = some v) :
    convert_type s info = (s, v) := by
  obtain ⟨hA, hB, hC⟩ := ct_post_convert_type s info
  rcases hC with ⟨w, hf, hs, ht⟩ | ⟨hf, _, _, _⟩ | ⟨hf, _, _⟩
  · rw [h] at hf
    rw [Prod.ext_iff]
    exact ⟨hs, ht.trans (Option.some.inj hf).symm⟩
  · rw [h] at hf
    exact Option.noConfusion hf
  · rw [h] at hf
    exact Option.noConfusion hf

theorem ct_unsupported {s : parser_state} {info : type_info}
    (hu : unsupported_scalar info = true)
    (hf : find_type s.type_lookup info = none) :
    convert_type s info = (s, 0) := by
  obtain ⟨hA, hB, hC⟩ := ct_post_convert_type s info
  rcases hC with ⟨w, hf2, hs, ht⟩ | ⟨_, _, hs, ht⟩ | ⟨_, hu2, _⟩
  · rw [hf] at hf2
    exact Option.noConfusion hf2
  · rw [Prod.ext_iff]
    exact ⟨hs, ht⟩
  · rw [hu] at hu2
    exact Bool.noConfusion hu2

/-- A second conversion of a structurally equal type, from any state whose
interning table agrees with the state the first call produced, returns the
identifier of the first call. -/
theorem ct_stable {s sB : parser_state} {t1 t2 : type_info}
    (heq : type_info_eq t1 t2 = true)
    (htl : sB.type_lookup = (convert_type s t1).1.type_lookup) :
    (convert_type sB t2).2 = (convert_type s t1).2 := by
  obtain ⟨hA, hB, hC⟩ := ct_post_convert_type s t1
  rcases hC with ⟨v, hf, hs, ht⟩ | ⟨hf, hu, hs, ht⟩ |
    ⟨hf, hu, pre, htl1, hent, _, _, _, _⟩
  · have hfB : find_type sB.type_lookup t2 = some v := by
      rw [← find_type_congr heq sB.type_lookup, htl, hs]
      exact hf
    rw [ct_found hfB, ht]
  · have hfB : find_type sB.type_lookup t2 = none := by
      rw [← find_type_congr heq sB.type_lookup, htl, hs]
      exact hf
    have huB : unsupported_scalar t2 = true := by
      rw [← unsupported_congr heq]
      exact hu
    rw [ct_unsupported huB hfB, ht]
  · have hfB : find_type sB.type_lookup t2 = some ((convert_type s t1).2) := by
      rw [← find_type_congr heq sB.type_lookup, htl, htl1]
      have h2 : find_type (s.type_lookup ++ pre) t1 = none := by
        rw [find_type_none_append hf]
        exact find_type_none_of_all (fun e he => (hent e he).1)
      rw [find_type_none_append h2, find_type_cons,
        if_pos (type_info_eq_refl t1)]
    rw [ct_found hfB]

/-- With a bounded interning table, converting a type whose definition
field is zero yields either the invalid identifier or one below the
resulting counter. -/
theorem ct_bounded_result {s : parser_state} (info : type_info)
    (hb : tl_bounded s) (hdef : info.definition = 0) :
    (convert_type s info).2 = 0 ∨
      (convert_type s info).2 < (convert_type s info).1.next_id := by
  obtain ⟨hA, hB, hC⟩ := ct_post_convert_type s info
  rcases hC with ⟨v, hf, hs, ht⟩ | ⟨_, _, _, ht⟩ |
    ⟨_, _, pre, _, _, _, _, hsdc, hnsdc⟩
  · right
    obtain ⟨e, he, _, hev⟩ := find_type_some_mem hf
    rw [ht, hs]
    rw [← hev]
    exact hb e he
  · left
    exact ht
  · cases hsd : struct_direct info with
    | true =>
      left
      rw [(hsdc hsd).1, hdef]
    | false =>
      right
      exact (hnsdc hsd).2

/-- The sized-array branch of `convert_type`, as an equation. -/
theorem ct_array_sized_eq (fuel : Nat) {s : parser_state} (info : type_info)
    (hfind : find_type s.type_lookup info = none)
    (harr : info.is_array = true) (hpos : 0 < info.array_length) :
    convert_type_fuel (fuel + 1) s info
      = (push_type
          ([(convert_type_fuel fuel s (scalar_element info info.rows info.cols)).2,
            info.array_lenghth_expression].foldl
            (fun acc v => add_operand acc
              (add_node (convert_type_fuel fuel s (scalar_element info info.rows info.cols)).1
                section_id.variables {} spv.OpTypeArray 0).2 v)
            (add_node (convert_type_fuel fuel s (scalar_element info info.rows info.cols)).1
              section_id.variables {} spv.OpTypeArray 0).1)
          info
          (add_node (convert_type_fuel fuel s (scalar_element info info.rows info.cols)).1
            section_id.variables {} spv.OpTypeArray 0).2,
        (add_node (convert_type_fuel fuel s (scalar_element info info.rows info.cols)).1
          section_id.variables {} spv.OpTypeArray 0).2) := by
  conv_lhs => rw [convert_type_fuel]
  rw [hfind, if_pos harr, if_pos hpos]
  rfl

/-- The runtime-array branch of `convert_type`, as an equation. -/
theorem ct_array_dyn_eq (fuel : Nat) {s : parser_state} (info : type_info)
    (hfind : find_type s.type_lookup info = none)
    (harr : info.is_array = true) (hpos : ¬ 0 < info.array_length) :
    convert_type_fuel (fuel + 1) s info
      = (push_type
          ([(convert_type_fuel fuel s (scalar_element info info.rows info.cols)).2].foldl
            (fun acc v => add_operand acc
              (add_node (convert_type_fuel fuel s (scalar_element info info.rows info.cols)).1
                section_id.variables {} spv.OpTypeRuntimeArray 0).2 v)
            (add_node (convert_type_fuel fuel s (scalar_element info info.rows info.cols)).1
              section_id.variables {} spv.OpTypeRuntimeArray 0).1)
          info
          (add_node (convert_type_fuel fuel s (scalar_element info info.rows info.cols)).1
            section_id.variables {} spv.OpTypeRuntimeArray 0).2,
        (add_node (convert_type_fuel fuel s (scalar_element info info.rows info.cols)).1
          section_id.variables {} spv.OpTypeRuntimeArray 0).2) := by
  conv_lhs => rw [convert_type_fuel]
  rw [hfind, if_pos harr, if_neg hpos]
  rfl

theorem convert_params_wf {ps : List type_info} {s : parser_state}
    (hwf : state_wf s) : state_wf (convert_params s ps).1 := by
  induction ps generalizing s with
  | nil => exact hwf
  | cons p rest ih =>
    exact ih (((ct_post_convert_type s p).2.1 hwf).1)

theorem convert_params_length (ps : List type_info) (s : parser_state) :
    (convert_params s ps).2.length = ps.length := by
  induction ps generalizing s with
  | nil => rfl
  | cons p rest ih =>
    simp only [convert_params, List.length_cons]
    rw [ih]

/-! ## The builder-operation machinery for the identifier contract -/

theorem state_wf_init : state_wf init_state := by
  refine ⟨rfl, ?_, List.nodup_nil⟩
  intro e he
  simp [init_state] at he

theorem state_wf_apply_op {s : parser_state} (o : builder_op)
    (hwf : state_wf s) : state_wf (apply_op s o) := by
  cases o with
  | mk_node sec loc op ty => exact state_wf_add_node sec loc op ty hwf
  | mk_node_no_result sec loc op => exact state_wf_anwr sec loc op hwf
  | mk_operand id v => exact state_wf_add_operand id v hwf

theorem state_wf_run_ops {s : parser_state} (l : List builder_op)
    (hwf : state_wf s) : state_wf (run_ops s l) := by
  induction l generalizing s with
  | nil => exact hwf
  | cons o rest ih => exact ih (state_wf_apply_op o hwf)

theorem apply_op_next_mono (s : parser_state) (o : builder_op) :
    s.next_id ≤ (apply_op s o).next_id := by
  cases o with
  | mk_node sec loc op ty =>
    rw [show apply_op s (builder_op.mk_node sec loc op ty)
        = (add_node s sec loc op ty).1 from rfl, add_node_next_id]
    omega
  | mk_node_no_result sec loc op => exact le_of_eq (anwr_next_id s sec loc op).symm
  | mk_operand id v => exact le_of_eq (add_operand_next_id s id v).symm

theorem run_ops_next_mono (s : parser_state) (l : List builder_op) :
    s.next_id ≤ (run_ops s l).next_id := by
  induction l generalizing s with
  | nil => exact le_refl _
  | cons o rest ih =>
    calc s.next_id ≤ (apply_op s o).next_id := apply_op_next_mono s o
      _ ≤ _ := ih (apply_op s o)

theorem returned_ids_lt (s : parser_state) (l : List builder_op) :
    ∀ i ∈ returned_ids s l, i < (run_ops s l).next_id := by
  induction l generalizing s with
  | nil =>
    intro i hi
    simp [returned_ids] at hi
  | cons o rest ih =>
    intro i hi
    cases o with
    | mk_node sec loc op ty =>
      simp only [returned_ids, List.singleton_append, List.mem_cons] at hi
      rcases hi with hi | hi
      · subst hi
        have h1 : (apply_op s (builder_op.mk_node sec loc op ty)).next_id
            = s.next_id + 1 := add_node_next_id s sec loc op ty
        have h2 := run_ops_next_mono
          (apply_op s (builder_op.mk_node sec loc op ty)) rest
        show s.next_id < (run_ops (apply_op s (builder_op.mk_node sec loc op ty)) rest).next_id
        omega
      · exact ih _ i hi
    | mk_node_no_result sec loc op =>
      simp only [returned_ids, List.nil_append] at hi
      exact ih _ i hi
    | mk_operand id v =>
      simp only [returned_ids, List.nil_append] at hi
      exact ih _ i hi

theorem node_fact_apply_op {s : parser_state} (o : builder_op)
    (hwf : state_wf s) {id opv tyv : Nat} {n : spv_node}
    (h : lookup_id s id = some n ∧ n.op = opv ∧ n.result_type = tyv) :
    ∃ m, lookup_id (apply_op s o) id = some m ∧ m.op = opv ∧
      m.result_type = tyv := by
  obtain ⟨hl, hop, hty⟩ := h
  cases o with
  | mk_node sec loc op ty =>
    exact ⟨n, lookup_id_add_node sec loc op ty hl, hop, hty⟩
  | mk_node_no_result sec loc op =>
    exact ⟨n, lookup_id_anwr sec loc op hl, hop, hty⟩
  | mk_operand id2 v =>
    by_cases he : id = id2
    · subst he
      exact ⟨_, lookup_id_add_operand_self v hl, hop, hty⟩
    · exact ⟨n, lookup_id_add_operand_ne hwf he hl, hop, hty⟩

theorem node_fact_run_ops {s : parser_state} (l : List builder_op)
    (hwf : state_wf s) {id opv tyv : Nat}
    (h : ∃ n, lookup_id s id = some n ∧ n.op = opv ∧ n.result_type = tyv) :
    ∃ n, lookup_id (run_ops s l) id = some n ∧ n.op = opv ∧
      n.result_type = tyv := by
  induction l generalizing s with
  | nil => exact h
  | cons o rest ih =>
    obtain ⟨n, hn⟩ := h
    exact ih (state_wf_apply_op o hwf) (node_fact_apply_op o hwf hn)

/-! ## Bridges used by the claim theorems -/

theorem beq_nat_decide (x y : Nat) : (x == y) = decide (x = y) := by
  by_cases h : x = y <;> simp [h]

theorem beq_int_decide (x y : Int) : (x == y) = decide (x = y) := by
  by_cases h : x = y <;> simp [h]

theorem beq_bool_decide (x y : Bool) : (x == y) = decide (x = y) := by
  by_cases h : x = y <;> simp [h]

theorem differ_only_fields {a b : type_info}
    (h : differ_only_in_array_length a b = true) :
    a.base = b.base ∧ a.size = b.size ∧ a.rows = b.rows ∧ a.cols = b.cols ∧
    a.is_signed = b.is_signed ∧ a.is_pointer = b.is_pointer ∧
    a.qualifiers = b.qualifiers ∧ a.definition = b.definition ∧
    a.array_lenghth_expression = b.array_lenghth_expression ∧
    a.array_length ≠ b.array_length := by
  simp only [differ_only_in_array_length, Bool.and_eq_true, beq_iff_eq,
    bne_iff_ne, ne_eq] at h
  exact ⟨h.1.1.1.1.1.1.1.1.1, h.1.1.1.1.1.1.1.1.2, h.1.1.1.1.1.1.1.2,
    h.1.1.1.1.1.1.2, h.1.1.1.1.1.2, h.1.1.1.1.2, h.1.1.1.2, h.1.1.2,
    h.1.2, h.2⟩

/-! ## The claim theorems -/

/-- C1 (amended): `convert_type` is idempotent and interning.  For every
pair of structurally equal `type_info` values (equal base kind, element
width, rows, cols, signedness, array length, struct-definition identity
and pointer flag; qualifiers free to differ), two consecutive calls return
the same identifier, from any builder state.  For every pair of
`type_info` values of NON-STRUCT base kind that differ only in array
length, two consecutive calls return different identifiers, from any
builder state whose counter is at least the reserved seed 100 and whose
interned non-struct entries carry pairwise-distinct identifiers in
`[100, next_id)`. -/
theorem C1_convert_type_interning (s : parser_state) (t1 t2 : type_info) :
    (type_info_eq t1 t2 = true →
      (convert_type (convert_type s t1).1 t2).2 = (convert_type s t1).2) ∧
    (tl_ns_inv s → tl_distinct s → 100 ≤ s.next_id →
      t1.base ≠ spv.OpTypeStruct →
      differ_only_in_array_length t1 t2 = true →
      (convert_type (convert_type s t1).1 t2).2 ≠ (convert_type s t1).2) := by
  constructor
  · intro heq
    exact ct_stable heq rfl
  · intro hinv hdist hn hbase hdiff
    obtain ⟨d1, d2, d3, d4, d5, d6, d7, d8, d9, d10⟩ := differ_only_fields hdiff
    have hbase2 : t2.base ≠ spv.OpTypeStruct := by
      rw [← d1]
      exact hbase
    have hsd1 : struct_direct t1 = false := struct_direct_false_of_base hbase
    have hsd2 : struct_direct t2 = false := struct_direct_false_of_base hbase2
    have hne12 : type_info_eq t1 t2 = false := eq_false_of_len d10
    obtain ⟨hA1, hB1, hC1⟩ := ct_post_convert_type s t1
    obtain ⟨hA2, hB2, hC2⟩ := ct_post_convert_type (convert_type s t1).1 t2
    rcases hC1 with ⟨v, hf1, hs1, ht1⟩ | ⟨hf1, hu1, hs1, ht1⟩ |
      ⟨hf1, hu1, pre1, htl1, hent1, hs01, hs11, hsd1c, hnsd1c⟩
    · obtain ⟨e1, he1m, he1eq, he1v⟩ := find_type_some_mem hf1
      have he1b : e1.1.base ≠ spv.OpTypeStruct := by
        rw [(type_info_eq_fields he1eq).1]
        exact hbase
      obtain ⟨hv1, hv2⟩ := hinv e1 he1m he1b
      rcases hC2 with ⟨w, hf2, hs2, ht2⟩ | ⟨hf2, hu2, hs2, ht2⟩ |
        ⟨hf2, hu2, pre2, htl2, hent2, _, _, _, hnsd2c⟩
      · rw [hs1] at hf2
        obtain ⟨e2, he2m, he2eq, he2w⟩ := find_type_some_mem hf2
        have hne : type_info_eq e1.1 e2.1 = false := by
          rw [type_info_eq_congr_left he1eq e2.1,
            type_info_eq_congr_right he2eq t1]
          exact hne12
        have hvw := hdist e1 he1m e2 he2m hne
        rw [ht2, ht1, ← he1v, ← he2w]
        exact fun hc => hvw hc.symm
      · rw [ht2, ht1, ← he1v]
        intro hc
        omega
      · obtain ⟨hb21, hb22⟩ := hnsd2c hsd2
        have hsn := congrArg parser_state.next_id hs1
        rw [ht1, ← he1v]
        intro hc
        omega
    · have hlen1 : t1.array_length = 0 := unsupported_len hu1
      rcases hC2 with ⟨w, hf2, hs2, ht2⟩ | ⟨hf2, hu2, hs2, ht2⟩ |
        ⟨hf2, hu2, pre2, htl2, hent2, _, _, _, hnsd2c⟩
      · rw [hs1] at hf2
        obtain ⟨e2, he2m, he2eq, he2w⟩ := find_type_some_mem hf2
        have he2b : e2.1.base ≠ spv.OpTypeStruct := by
          rw [(type_info_eq_fields he2eq).1]
          exact hbase2
        obtain ⟨hw1, hw2⟩ := hinv e2 he2m he2b
        rw [ht2, ht1, ← he2w]
        intro hc
        omega
      · have hlen2 : t2.array_length = 0 := unsupported_len hu2
        exact absurd (hlen1.trans hlen2.symm) d10
      · obtain ⟨hb21, hb22⟩ := hnsd2c hsd2
        have hsn := congrArg parser_state.next_id hs1
        rw [ht1]
        intro hc
        omega
    · obtain ⟨hb11, hb12⟩ := hnsd1c hsd1
      rcases hC2 with ⟨w, hf2, hs2, ht2⟩ | ⟨hf2, hu2, hs2, ht2⟩ |
        ⟨hf2, hu2, pre2, htl2, hent2, _, _, _, hnsd2c⟩
      · rw [htl1] at hf2
        obtain ⟨e2, he2m, he2eq, he2w⟩ := find_type_some_mem hf2
        rcases List.mem_append.mp he2m with he2m | he2m
        · rcases List.mem_append.mp he2m with hm | hm
          · have he2b : e2.1.base ≠ spv.OpTypeStruct := by
              rw [(type_info_eq_fields he2eq).1]
              exact hbase2
            obtain ⟨hw1, hw2⟩ := hinv e2 hm he2b
            rw [ht2, ← he2w]
            intro hc
            omega
          · obtain ⟨q1, q2, q3, q4, q5, q6, q7⟩ := hent1 e2 hm
            have hsde : struct_direct e2.1 = false :=
              struct_direct_false_of_base (by rw [q2]; exact hbase)
            obtain ⟨b1, b2⟩ := q7 hsde
            rw [ht2, ← he2w]
            intro hc
            omega
        · rw [List.mem_singleton] at he2m
          subst he2m
          rw [hne12] at he2eq
          exact Bool.noConfusion he2eq
      · rw [ht2]
        intro hc
        omega
      · obtain ⟨hb21, hb22⟩ := hnsd2c hsd2
        intro hc
        omega

/-- C1 counterexample: the claim as stated fails for a struct-base pair
differing only in array length: from the initial builder state, converting
the sized struct array hands out the fresh identifier 100 for the array
node, and the subsequent conversion of the plain struct type returns its
(caller-supplied) definition identifier 100 — the same identifier. -/
theorem C1_counterexample :
    differ_only_in_array_length sample_struct_sized sample_struct_scalar = true ∧
    (convert_type (convert_type init_state sample_struct_sized).1
        sample_struct_scalar).2
      = (convert_type init_state sample_struct_sized).2 := by
  constructor
  · decide
  · decide

theorem C1_witness :
    (type_info_eq sample_float sample_float_q = true ∧
      (convert_type (convert_type init_state sample_float).1 sample_float_q).2
        = (convert_type init_state sample_float).2) ∧
    (tl_ns_inv init_state ∧ tl_distinct init_state ∧
      100 ≤ init_state.next_id ∧
      sample_float_arr.base ≠ spv.OpTypeStruct ∧
      differ_only_in_array_length sample_float_arr sample_float_arr0 = true ∧
      (convert_type (convert_type init_state sample_float_arr).1
          sample_float_arr0).2
        ≠ (convert_type init_state sample_float_arr).2) := by
  refine ⟨⟨by decide, ?_⟩, ⟨?_, ?_, ?_, ?_, ?_, ?_⟩⟩
  · exact (C1_convert_type_interning init_state sample_float sample_float_q).1
      (by decide)
  · intro e he
    simp [init_state] at he
  · intro e1 he1
    simp [init_state] at he1
  · decide
  · decide
  · decide
  · exact (C1_convert_type_interning init_state sample_float_arr
      sample_float_arr0).2
      (by intro e he; simp [init_state] at he)
      (by intro e1 he1; simp [init_state] at he1)
      (by decide) (by decide) (by decide)

/-- C3: `operator==` on `type_info` returns true exactly when base kind,
element width, rows, cols, signedness, array length, struct-definition
identity and pointer flag all match, and the qualifier bit-set plays no
role: a value compares equal to itself with any other qualifiers. -/
theorem C3_type_info_equality (a b : type_info) (q : Nat) :
    (type_info_eq a b
      = (decide (a.base = b.base) && decide (a.size = b.size) &&
         decide (a.rows = b.rows) && decide (a.cols = b.cols) &&
         decide (a.is_signed = b.is_signed) &&
         decide (a.array_length = b.array_length) &&
         decide (a.definition = b.definition) &&
         decide (a.is_pointer = b.is_pointer))) ∧
    type_info_eq a { a with qualifiers := q } = true ∧
    type_info_eq { a with qualifiers := q } a = true := by
  refine ⟨?_, ?_, ?_⟩
  · simp only [type_info_eq, beq_nat_decide, beq_int_decide, beq_bool_decide]
  · simp [type_info_eq]
  · simp [type_info_eq]

/-- C9: the shape predicates of `type_info`: `is_scalar` holds exactly on
non-array, non-matrix, non-vector numeric types; `is_vector` exactly when
rows exceed 1 and cols equal 1; `is_matrix` exactly when rows are at least
1 and cols exceed 1; and no value is both a vector and a matrix. -/
theorem C9_shape_predicates (t : type_info) :
    (t.is_scalar
      = (!t.is_array && !t.is_matrix && !t.is_vector && t.is_numeric)) ∧
    (t.is_vector = (decide (1 < t.rows) && decide (t.cols = 1))) ∧
    (t.is_matrix = (decide (1 ≤ t.rows) && decide (1 < t.cols))) ∧
    ((t.is_vector && t.is_matrix) = false) := by
  refine ⟨rfl, ?_, rfl, ?_⟩
  · by_cases hc : t.cols = 1 <;> simp [type_info.is_vector, hc]
  · by_cases hc : t.cols = 1
    · simp [type_info.is_matrix, hc]
    · simp [type_info.is_vector, hc]

/-- C10: a freshly default-constructed `pass_properties` record has
clear-render-targets set, color write mask 0xF, stencil read/write masks
0xFF, ADD blend operations, ONE/ZERO source/destination blend factors for
both the color and alpha pairs, ALWAYS as the stencil comparison, KEEP for
all three stencil operations, and zero render-target and shader
identifiers — for any values of the uninitialized members. -/
theorem C10_pass_defaults (srgb blend stencil : Bool) (sref : Nat) :
    (default_pass srgb blend stencil sref).clear_render_targets = true ∧
    (default_pass srgb blend stencil sref).color_write_mask = 0xF ∧
    (default_pass srgb blend stencil sref).stencil_read_mask = 0xFF ∧
    (default_pass srgb blend stencil sref).stencil_write_mask = 0xFF ∧
    (default_pass srgb blend stencil sref).blend_op = pass_properties.ADD ∧
    (default_pass srgb blend stencil sref).blend_op_alpha
      = pass_properties.ADD ∧
    (default_pass srgb blend stencil sref).src_blend = pass_properties.ONE ∧
    (default_pass srgb blend stencil sref).dest_blend
      = pass_properties.ZERO ∧
    (default_pass srgb blend stencil sref).src_blend_alpha
      = pass_properties.ONE ∧
    (default_pass srgb blend stencil sref).dest_blend_alpha
      = pass_properties.ZERO ∧
    (default_pass srgb blend stencil sref).stencil_comparison_func
      = pass_properties.ALWAYS ∧
    (default_pass srgb blend stencil sref).stencil_op_pass
      = pass_properties.KEEP ∧
    (default_pass srgb blend stencil sref).stencil_op_fail
      = pass_properties.KEEP ∧
    (default_pass srgb blend stencil sref).stencil_op_depth_fail
      = pass_properties.KEEP ∧
    (default_pass srgb blend stencil sref).render_targets
      = List.replicate 8 0 ∧
    (∀ r ∈ (default_pass srgb blend stencil sref).render_targets, r = 0) ∧
    (default_pass srgb blend stencil sref).vertex_shader = 0 ∧
    (default_pass srgb blend stencil sref).pixel_shader = 0 := by
  refine ⟨rfl, rfl, rfl, rfl, rfl, rfl, rfl, rfl, rfl, rfl, rfl, rfl, rfl,
    rfl, rfl, ?_, rfl, rfl⟩
  intro r hr
  exact List.eq_of_mem_replicate hr

/-- C2: every identifier `add_node` returns is at least the reserved seed
100, strictly greater than every identifier returned earlier in the
compile, and for the remainder of the compile (any further sequence of
builder mutations) `lookup_id` resolves it to a node whose `op` and
`result_type` are the ones requested. -/
theorem C2_add_node_contract (l : List builder_op) (sec : section_id)
    (loc : location) (op ty : Nat) (l' : List builder_op) :
    100 ≤ (add_node (run_ops init_state l) sec loc op ty).2 ∧
    (∀ i ∈ returned_ids init_state l,
      i < (add_node (run_ops init_state l) sec loc op ty).2) ∧
    ∃ n, lookup_id (run_ops (add_node (run_ops init_state l) sec loc op ty).1 l')
        (add_node (run_ops init_state l) sec loc op ty).2 = some n ∧
      n.op = op ∧ n.result_type = ty := by
  have hwf : state_wf (run_ops init_state l) := state_wf_run_ops l state_wf_init
  rw [add_node_snd]
  refine ⟨next_id_ge_100 hwf, returned_ids_lt init_state l, ?_⟩
  exact node_fact_run_ops l' (state_wf_add_node sec loc op ty hwf)
    ⟨fresh_node (run_ops init_state l) sec loc op ty,
     lookup_id_add_node_self sec loc op ty hwf, rfl, rfl⟩

/-- C4 (amended): for every `type_info` of struct base kind with neither
the array nor the pointer flag set AND neither vector nor matrix shape,
`convert_type` returns the struct's pre-existing definition identifier
directly and appends no instruction node (all sections, the identifier
table and the counter are unchanged) — in any state whose interned
struct-scalar entries carry their definition identifier. -/
theorem C4_struct_types (s : parser_state) (t : type_info)
    (hinv : tl_struct_inv s) (hsd : struct_direct t = true) :
    (convert_type s t).2 = t.definition ∧
    (∀ sec, (convert_type s t).1.sections sec = s.sections sec) ∧
    (convert_type s t).1.next_id = s.next_id ∧
    (convert_type s t).1.id_lookup = s.id_lookup := by
  obtain ⟨hA, hB, hC⟩ := ct_post_convert_type s t
  rcases hC with ⟨v, hf, hs, ht⟩ | ⟨hf, hu, hs, ht⟩ |
    ⟨hf, hu, pre, htl, hent, _, _, hsdc, _⟩
  · obtain ⟨e, hem, heq, hev⟩ := find_type_some_mem hf
    have hsde : struct_direct e.1 = true := by
      rw [struct_direct_congr heq]
      exact hsd
    have hdef := hinv e hem hsde
    have hdefs : e.1.definition = t.definition :=
      (type_info_eq_fields heq).2.2.2.2.2.2.1
    refine ⟨?_, ?_, ?_, ?_⟩
    · rw [ht, ← hev, hdef, hdefs]
    · intro x
      rw [hs]
    · rw [hs]
    · rw [hs]
  · rw [unsupported_false_of_struct hsd] at hu
    exact Bool.noConfusion hu
  · obtain ⟨h1, h2, h3, h4⟩ := hsdc hsd
    exact ⟨h1, h3, h2, h4⟩

/-- C4 counterexample: a struct-base `type_info` with vector shape
(rows 2, cols 1) and neither array nor pointer flag makes `convert_type`
synthesize a fresh vector type node: the returned identifier differs from
the struct's definition identifier and an instruction is appended. -/
theorem C4_counterexample :
    sample_struct_vec.base = spv.OpTypeStruct ∧
    sample_struct_vec.is_array = false ∧
    sample_struct_vec.is_pointer = false ∧
    (convert_type init_state sample_struct_vec).2
      ≠ sample_struct_vec.definition ∧
    ((convert_type init_state sample_struct_vec).1.sections
      section_id.variables).length ≠ 0 := by
  refine ⟨rfl, rfl, rfl, by decide, by decide⟩

theorem C4_witness :
    (tl_struct_inv init_state ∧ struct_direct sample_struct_plain = true) ∧
    ((convert_type init_state sample_struct_plain).2
      = sample_struct_plain.definition ∧
    (∀ sec, (convert_type init_state sample_struct_plain).1.sections sec
      = init_state.sections sec) ∧
    (convert_type init_state sample_struct_plain).1.next_id
      = init_state.next_id ∧
    (convert_type init_state sample_struct_plain).1.id_lookup
      = init_state.id_lookup) :=
  ⟨⟨by intro e he; simp [init_state] at he, by decide⟩,
   C4_struct_types init_state sample_struct_plain
     (by intro e he; simp [init_state] at he) (by decide)⟩

/-- C5: `convert_constant` with value 0 emits an `OpConstantNull` node
typed with the interned type and carrying no operand; with a nonzero value
it emits an `OpConstant` node carrying exactly that raw value; two
consecutive calls with different nonzero values produce distinct constant
node identifiers, while all three nodes share the interned type identifier
obtained by `convert_type`. -/
theorem C5_convert_constant (s : parser_state) (t : type_info) (v1 v2 : Nat)
    (hwf : state_wf s) (hv1 : v1 ≠ 0) (hv2 : v2 ≠ 0) (hne : v1 ≠ v2) :
    (∃ n, lookup_id (convert_constant s t 0).1 (convert_constant s t 0).2
        = some n ∧ n.op = spv.OpConstantNull ∧
      n.result_type = (convert_type s t).2 ∧ n.operands = []) ∧
    (∃ n, lookup_id (convert_constant s t v1).1 (convert_constant s t v1).2
        = some n ∧ n.op = spv.OpConstant ∧
      n.result_type = (convert_type s t).2 ∧ n.operands = [v1]) ∧
    (∃ n, lookup_id (convert_constant (convert_constant s t v1).1 t v2).1
        (convert_constant (convert_constant s t v1).1 t v2).2 = some n ∧
      n.op = spv.OpConstant ∧ n.result_type = (convert_type s t).2 ∧
      n.operands = [v2]) ∧
    (convert_constant (convert_constant s t v1).1 t v2).2
      ≠ (convert_constant s t v1).2 := by
  have hwf1 : state_wf (convert_type s t).1 :=
    ((ct_post_convert_type s t).2.1 hwf).1
  have h1 : convert_constant s t v1
      = (add_operand
          (add_node (convert_type s t).1 section_id.variables {}
            spv.OpConstant (convert_type s t).2).1
          (add_node (convert_type s t).1 section_id.variables {}
            spv.OpConstant (convert_type s t).2).2 v1,
         (add_node (convert_type s t).1 section_id.variables {}
           spv.OpConstant (convert_type s t).2).2) := by
    simp only [convert_constant, if_neg hv1]
  have htlC : (convert_constant s t v1).1.type_lookup
      = (convert_type s t).1.type_lookup := by
    rw [h1, add_operand_type_lookup, add_node_type_lookup]
  have hwfC : state_wf (convert_constant s t v1).1 := by
    rw [h1]
    exact state_wf_add_operand _ _
      (state_wf_add_node _ _ _ _ hwf1)
  have hstab : (convert_type (convert_constant s t v1).1 t).2
      = (convert_type s t).2 := ct_stable (type_info_eq_refl t) htlC
  have hwfC2 : state_wf (convert_type (convert_constant s t v1).1 t).1 :=
    ((ct_post_convert_type (convert_constant s t v1).1 t).2.1 hwfC).1
  have h2 : convert_constant (convert_constant s t v1).1 t v2
      = (add_operand
          (add_node (convert_type (convert_constant s t v1).1 t).1
            section_id.variables {} spv.OpConstant
            (convert_type (convert_constant s t v1).1 t).2).1
          (add_node (convert_type (convert_constant s t v1).1 t).1
            section_id.variables {} spv.OpConstant
            (convert_type (convert_constant s t v1).1 t).2).2 v2,
         (add_node (convert_type (convert_constant s t v1).1 t).1
           section_id.variables {} spv.OpConstant
           (convert_type (convert_constant s t v1).1 t).2).2) := by
    simp only [convert_constant, if_neg hv2]
  refine ⟨?_, ?_, ?_, ?_⟩
  · exact ⟨_, lookup_id_add_node_self section_id.variables {}
      spv.OpConstantNull (convert_type s t).2 hwf1, rfl, rfl, rfl⟩
  · rw [h1]
    exact ⟨_, chain_lookup_self section_id.variables {} spv.OpConstant
      (convert_type s t).2 [v1] hwf1, rfl, rfl, rfl⟩
  · rw [h2]
    exact ⟨_, chain_lookup_self section_id.variables {} spv.OpConstant
      (convert_type (convert_constant s t v1).1 t).2 [v2] hwfC2, rfl,
      hstab, rfl⟩
  · have hA2 := (ct_post_convert_type (convert_constant s t v1).1 t).1
    have hc1 : (convert_constant s t v1).2
        = (convert_type s t).1.next_id := by
      rw [h1]
      exact add_node_snd (convert_type s t).1 section_id.variables {}
        spv.OpConstant (convert_type s t).2
    have hsCn : (convert_constant s t v1).1.next_id
        = (convert_type s t).1.next_id + 1 := by
      rw [h1]
      show (add_operand _ _ _).next_id = _
      rw [add_operand_next_id, add_node_next_id]
    have hc2 : (convert_constant (convert_constant s t v1).1 t v2).2
        = (convert_type (convert_constant s t v1).1 t).1.next_id := by
      rw [h2]
      exact add_node_snd (convert_type (convert_constant s t v1).1 t).1
        section_id.variables {} spv.OpConstant
        (convert_type (convert_constant s t v1).1 t).2
    omega

theorem C5_witness :
    (state_wf init_state ∧ (5 : Nat) ≠ 0 ∧ (9 : Nat) ≠ 0 ∧
      (5 : Nat) ≠ 9) ∧
    ((∃ n, lookup_id (convert_constant init_state sample_float 0).1
        (convert_constant init_state sample_float 0).2 = some n ∧
      n.op = spv.OpConstantNull ∧
      n.result_type = (convert_type init_state sample_float).2 ∧
      n.operands = []) ∧
    (∃ n, lookup_id (convert_constant init_state sample_float 5).1
        (convert_constant init_state sample_float 5).2 = some n ∧
      n.op = spv.OpConstant ∧
      n.result_type = (convert_type init_state sample_float).2 ∧
      n.operands = [5]) ∧
    (∃ n, lookup_id
        (convert_constant (convert_constant init_state sample_float 5).1
          sample_float 9).1
        (convert_constant (convert_constant init_state sample_float 5).1
          sample_float 9).2 = some n ∧
      n.op = spv.OpConstant ∧
      n.result_type = (convert_type init_state sample_float).2 ∧
      n.operands = [9]) ∧
    (convert_constant (convert_constant init_state sample_float 5).1
        sample_float 9).2
      ≠ (convert_constant init_state sample_float 5).2) :=
  ⟨⟨state_wf_init, by decide, by decide, by decide⟩,
   C5_convert_constant init_state sample_float 5 9 state_wf_init (by decide)
     (by decide) (by decide)⟩

/-- C6: for an array-typed `type_info` (nonzero array length) not already
interned, a positive length produces an `OpTypeArray` node whose operands
are the interned element-type identifier followed by the length-expression
identifier, a negative length an `OpTypeRuntimeArray` node whose sole
operand is the interned element-type identifier, and in both cases the
element-type identifier is strictly smaller than the composite node's
identifier. -/
theorem C6_array_conversion (s : parser_state) (t : type_info)
    (hwf : state_wf s) (hb : tl_bounded s)
    (hfind : find_type s.type_lookup t = none)
    (harr : t.array_length ≠ 0) :
    (convert_type s (scalar_element t t.rows t.cols)).2
      < (convert_type s t).2 ∧
    (0 < t.array_length →
      ∃ n, lookup_id (convert_type s t).1 (convert_type s t).2 = some n ∧
        n.op = spv.OpTypeArray ∧
        n.operands = [(convert_type s (scalar_element t t.rows t.cols)).2,
          t.array_lenghth_expression]) ∧
    (t.array_length < 0 →
      ∃ n, lookup_id (convert_type s t).1 (convert_type s t).2 = some n ∧
        n.op = spv.OpTypeRuntimeArray ∧
        n.operands = [(convert_type s (scalar_element t t.rows t.cols)).2]) := by
  have harr2 : t.is_array = true := is_array_true_iff.mpr harr
  have hdep : ct_depth (scalar_element t t.rows t.cols) ≤ 3 := by
    rw [ct_depth_scalar_element]
    split <;> split <;> omega
  have h34 : convert_type_fuel 3 s (scalar_element t t.rows t.cols)
      = convert_type s (scalar_element t t.rows t.cols) :=
    convert_type_fuel_ge s hdep
  have hwfe : state_wf (convert_type s (scalar_element t t.rows t.cols)).1 :=
    ((ct_post_convert_type s (scalar_element t t.rows t.cols)).2.1 hwf).1
  have helem := ct_bounded_result (scalar_element t t.rows t.cols) hb rfl
  have hge : s.next_id
      ≤ (convert_type s (scalar_element t t.rows t.cols)).1.next_id :=
    (ct_post_convert_type s (scalar_element t t.rows t.cols)).1
  have h100 := next_id_ge_100 hwf
  by_cases hpos : 0 < t.array_length
  · have heq := ct_array_sized_eq 3 t hfind harr2 hpos
    rw [h34] at heq
    rw [show convert_type s t = convert_type_fuel (3 + 1) s t from rfl, heq]
    refine ⟨?_, ?_, ?_⟩
    · rw [add_node_snd]
      rcases helem with h0 | hlt
      · rw [h0]
        omega
      · exact hlt
    · intro _
      exact ⟨_, chain_lookup_self section_id.variables {} spv.OpTypeArray 0
        [(convert_type s (scalar_element t t.rows t.cols)).2,
         t.array_lenghth_expression] hwfe, rfl, rfl⟩
    · intro hneg
      exact absurd hpos (by omega)
  · have hneg : t.array_length < 0 := by omega
    have heq := ct_array_dyn_eq 3 t hfind harr2 hpos
    rw [h34] at heq
    rw [show convert_type s t = convert_type_fuel (3 + 1) s t from rfl, heq]
    refine ⟨?_, ?_, ?_⟩
    · rw [add_node_snd]
      rcases helem with h0 | hlt
      · rw [h0]
        omega
      · exact hlt
    · intro hp
      exact absurd hp hpos
    · intro _
      exact ⟨_, chain_lookup_self section_id.variables {}
        spv.OpTypeRuntimeArray 0
        [(convert_type s (scalar_element t t.rows t.cols)).2] hwfe, rfl, rfl⟩

theorem C6_witness :
    (state_wf init_state ∧ tl_bounded init_state ∧
      find_type init_state.type_lookup sample_float_arr = none ∧
      sample_float_arr.array_length ≠ 0) ∧
    ((convert_type init_state
        (scalar_element sample_float_arr sample_float_arr.rows
          sample_float_arr.cols)).2
      < (convert_type init_state sample_float_arr).2 ∧
    (0 < sample_float_arr.array_length →
      ∃ n, lookup_id (convert_type init_state sample_float_arr).1
          (convert_type init_state sample_float_arr).2 = some n ∧
        n.op = spv.OpTypeArray ∧
        n.operands = [(convert_type init_state
            (scalar_element sample_float_arr sample_float_arr.rows
              sample_float_arr.cols)).2,
          sample_float_arr.array_lenghth_expression]) ∧
    (sample_float_arr.array_length < 0 →
      ∃ n, lookup_id (convert_type init_state sample_float_arr).1
          (convert_type init_state sample_float_arr).2 = some n ∧
        n.op = spv.OpTypeRuntimeArray ∧
        n.operands = [(convert_type init_state
            (scalar_element sample_float_arr sample_float_arr.rows
              sample_float_arr.cols)).2])) :=
  ⟨⟨state_wf_init, by intro e he; simp [init_state] at he, by decide,
    by decide⟩,
   C6_array_conversion init_state sample_float_arr state_wf_init
     (by intro e he; simp [init_state] at he) (by decide) (by decide)⟩

/-- C7: `convert_type` on a `function_info` produces a function-signature
type node whose operand list is the interned return-type identifier
followed by the interned identifier of each parameter type in declaration
order: the i-th parameter's interned identifier appears at operand
position i + 1. -/
theorem C7_function_signature (s : parser_state) (f : function_info)
    (hwf : state_wf s) :
    ∃ n, lookup_id (convert_type_function s f).1
        (convert_type_function s f).2 = some n ∧
      n.op = spv.OpTypeFunction ∧
      n.operands = (convert_type s f.return_type).2
        :: (convert_params (convert_type s f.return_type).1
            f.parameter_list).2 ∧
      (convert_params (convert_type s f.return_type).1
        f.parameter_list).2.length = f.parameter_list.length ∧
      ∀ i : Nat, n.operands[i + 1]?
        = (convert_params (convert_type s f.return_type).1
           f.parameter_list).2[i]? := by
  have hwf1 : state_wf (convert_type s f.return_type).1 :=
    ((ct_post_convert_type s f.return_type).2.1 hwf).1
  have hwf2 : state_wf (convert_params (convert_type s f.return_type).1
      f.parameter_list).1 := convert_params_wf hwf1
  refine ⟨_, chain_lookup_self section_id.variables {} spv.OpTypeFunction 0
      ((convert_type s f.return_type).2
        :: (convert_params (convert_type s f.return_type).1
            f.parameter_list).2) hwf2,
    rfl, rfl, convert_params_length _ _, fun i => ?_⟩
  exact List.getElem?_cons_succ

theorem C7_witness :
    state_wf init_state ∧
    (∃ n, lookup_id (convert_type_function init_state sample_fn).1
        (convert_type_function init_state sample_fn).2 = some n ∧
      n.op = spv.OpTypeFunction ∧
      n.operands = (convert_type init_state sample_fn.return_type).2
        :: (convert_params (convert_type init_state sample_fn.return_type).1
            sample_fn.parameter_list).2 ∧
      (convert_params (convert_type init_state sample_fn.return_type).1
        sample_fn.parameter_list).2.length
        = sample_fn.parameter_list.length ∧
      ∀ i : Nat, n.operands[i + 1]?
        = (convert_params (convert_type init_state sample_fn.return_type).1
           sample_fn.parameter_list).2[i]?) :=
  ⟨state_wf_init, C7_function_signature init_state sample_fn state_wf_init⟩

/-- C8: a non-array, non-pointer `type_info` that is neither vector nor
matrix shaped, whose base kind is outside the supported set (void, bool,
float, int, struct, image, sampled-image) and which is not already
interned, makes `convert_type` return the invalid identifier 0 and leave
the state completely unchanged (no node appended). -/
theorem C8_unsupported_base (s : parser_state) (t : type_info)
    (hfind : find_type s.type_lookup t = none)
    (h1 : t.is_array = false) (h2 : t.is_pointer = false)
    (h3 : t.is_vector = false) (h4 : t.is_matrix = false)
    (h5 : t.base ≠ spv.OpTypeVoid) (h6 : t.base ≠ spv.OpTypeBool)
    (h7 : t.base ≠ spv.OpTypeFloat) (h8 : t.base ≠ spv.OpTypeInt)
    (h9 : t.base ≠ spv.OpTypeStruct) (h10 : t.base ≠ spv.OpTypeImage)
    (h11 : t.base ≠ spv.OpTypeSampledImage) :
    convert_type s t = (s, 0) := by
  have huns : unsupported_scalar t = true := by
    simp [unsupported_scalar, h1, h2, h3, h4, bne_iff_ne, h5, h6, h7, h8,
      h9, h10, h11]
  exact ct_unsupported huns hfind

theorem C8_witness :
    (find_type init_state.type_lookup sample_unsupported = none ∧
      sample_unsupported.is_array = false ∧
      sample_unsupported.is_pointer = false ∧
      sample_unsupported.is_vector = false ∧
      sample_unsupported.is_matrix = false ∧
      sample_unsupported.base ≠ spv.OpTypeVoid ∧
      sample_unsupported.base ≠ spv.OpTypeBool ∧
      sample_unsupported.base ≠ spv.OpTypeFloat ∧
      sample_unsupported.base ≠ spv.OpTypeInt ∧
      sample_unsupported.base ≠ spv.OpTypeStruct ∧
      sample_unsupported.base ≠ spv.OpTypeImage ∧
      sample_unsupported.base ≠ spv.OpTypeSampledImage) ∧
    convert_type init_state sample_unsupported = (init_state, 0) :=
  ⟨⟨by decide, by decide, by decide, by decide, by decide, by decide,
    by decide, by decide, by decide, by decide, by decide, by decide⟩,
   C8_unsupported_base init_state sample_unsupported (by decide) (by decide)
     (by decide) (by decide) (by decide) (by decide) (by decide) (by decide)
     (by decide) (by decide) (by decide) (by decide)⟩

end reshadefx
